import Mathlib

/-!
# Shallow embedding of the Health & Alert Evaluation Engine

This file embeds the core of the `linux-server-monitoring` repository:

* `src/shared/models.py`            — the metric sample value types,
* `src/server/database/operations.py` — the persistence operations the engine
  depends on (servers, metrics, alerts, health status),
* `src/server/alerts/engine.py`     — the `AlertEngine` (threshold evaluation,
  offline sweep, webhook delivery with retries, alert resolution),
* `src/server/health/manager.py`    — the `HealthStatusManager` classifier.

Modelling conventions:

* Timestamps (`datetime.utcnow()` values) are rationals counting seconds;
  `datetime` subtraction becomes subtraction in `ℚ` and
  `timedelta(seconds = n)` / `timedelta(minutes = n)` become `n` / `n * 60`.
* Python floats (percentages, thresholds) are modelled as `ℚ`; all the
  comparisons performed by the source are order comparisons, which agree.
* The SQLAlchemy session is modelled as an explicit `DBState` value threaded
  through every operation; `session.query(...).update(...)` becomes a `map`
  over the corresponding list, `session.add` an append, the autoincrement
  primary key an explicit counter.
* Each call to `AlertOperations.update_webhook_status` (the Persistence
  Port's record-delivery operation) is additionally appended to the
  observation log `DBState.webhook_log`, so that theorems can speak about
  how often delivery status was recorded.
* Outbound HTTP (`requests.post`) is modelled by a function
  `net : Nat → Option Int` giving, per attempt index, either the HTTP status
  code of the response (`some code`) or a transport exception (`none`).
-/

namespace Monitoring

/-- `src/shared/models.py` `DiskUsage`: usage of one filesystem. -/
structure DiskUsage where
  mountpoint : String
  total : Nat
  used : Nat
  percentage : ℚ
deriving DecidableEq

/-- `src/shared/models.py` `MemoryInfo`. -/
structure MemoryInfo where
  total : Nat
  used : Nat
  percentage : ℚ
deriving DecidableEq

/-- `src/shared/models.py` `LoadAverage`. -/
structure LoadAverage where
  one_min : ℚ
  five_min : ℚ
  fifteen_min : ℚ
deriving DecidableEq

/-- `src/shared/models.py` `FailedService`. -/
structure FailedService where
  name : String
  status : String
  since : Option String
deriving DecidableEq

/-- `src/shared/models.py` `SystemMetrics`: one observation from a host. -/
structure SystemMetrics where
  server_id : String
  timestamp : String
  cpu_usage : ℚ
  memory : MemoryInfo
  disk_usage : List DiskUsage
  load_average : LoadAverage
  uptime : Nat
  failed_services : List FailedService
deriving DecidableEq

/-- `src/server/database/models.py` `Server` row: identity and liveness.
`server_id` is declared `unique=True` in the schema; `last_seen` is a
non-nullable timestamp. -/
structure Server where
  server_id : String
  last_seen : ℚ
  is_active : Bool
deriving DecidableEq

/-- `src/server/database/models.py` `Metric` row, as stored by
`MetricOperations.store_metrics`. -/
structure MetricRow where
  server_id : String
  timestamp : ℚ
  cpu_usage : ℚ
  memory_total : Nat
  memory_used : Nat
  memory_percentage : ℚ
  disk_usage : List DiskUsage
  load_1min : ℚ
  load_5min : ℚ
  load_15min : ℚ
  uptime : Nat
  failed_services : List FailedService
deriving DecidableEq

/-- `src/server/database/models.py` `Alert` row. -/
structure Alert where
  id : Nat
  server_id : String
  alert_type : String
  severity : String
  message : String
  threshold_value : Option ℚ
  actual_value : Option ℚ
  triggered_at : ℚ
  resolved_at : Option ℚ
  is_resolved : Bool
  webhook_sent : Bool
  webhook_sent_at : Option ℚ
  webhook_response_code : Option Int
deriving DecidableEq

/-- `src/server/database/models.py` `HealthStatus` row (one per server,
overwritten in place by `HealthStatusOperations.update_health_status`). -/
structure HealthStatus where
  server_id : String
  status : String
  last_check : ℚ
  status_since : ℚ
  cpu_status : String
  memory_status : String
  disk_status : String
  connectivity_status : String
  last_cpu_usage : Option ℚ
  last_memory_percentage : Option ℚ
  last_disk_usage_max : Option ℚ
deriving DecidableEq

/-- The database session state threaded through every operation.
`webhook_log` is the observation log of `update_webhook_status` calls
(alert id and recorded response code), used to state how often the
delivery outcome was recorded through the Persistence Port. -/
structure DBState where
  servers : List Server
  metrics : List MetricRow
  alerts : List Alert
  health : List HealthStatus
  next_alert_id : Nat
  webhook_log : List (Nat × Option Int)
deriving DecidableEq

/-! ## Persistence operations (`src/server/database/operations.py`) -/

/-- `ServerOperations.get_server`: `.filter(Server.server_id == server_id).first()`. -/
def ServerOperations.get_server (db : DBState) (server_id : String) : Option Server :=
  db.servers.find? (fun s => s.server_id == server_id)

/-- `ServerOperations.get_all_servers`. -/
def ServerOperations.get_all_servers (db : DBState) (active_only : Bool) : List Server :=
  if active_only then db.servers.filter (fun s => s.is_active) else db.servers

/-- `MetricOperations.get_latest_metrics`: metrics of the server ordered by
timestamp descending, limited.  The SQL `ORDER BY timestamp DESC` is modelled
with an insertion sort by `≥` on the timestamp. -/
def MetricOperations.get_latest_metrics (db : DBState) (server_id : String) (limit : Nat) :
    List MetricRow :=
  (List.insertionSort (fun a b : MetricRow => a.timestamp ≥ b.timestamp)
    (db.metrics.filter (fun m => m.server_id == server_id))).take limit

/-- `AlertOperations.create_alert`: inserts a new row whose defaulted columns
are `triggered_at = now()`, `resolved_at = NULL`, `is_resolved = false`,
`webhook_sent = false`, `webhook_sent_at = NULL`, `webhook_response_code = NULL`;
the autoincrement primary key is the explicit counter `next_alert_id`. -/
def AlertOperations.create_alert (db : DBState) (server_id alert_type severity message : String)
    (threshold_value actual_value : Option ℚ) (now : ℚ) : Alert × DBState :=
  let alert : Alert :=
    { id := db.next_alert_id
      server_id := server_id
      alert_type := alert_type
      severity := severity
      message := message
      threshold_value := threshold_value
      actual_value := actual_value
      triggered_at := now
      resolved_at := none
      is_resolved := false
      webhook_sent := false
      webhook_sent_at := none
      webhook_response_code := none }
  (alert, { db with alerts := db.alerts ++ [alert], next_alert_id := db.next_alert_id + 1 })

/-- `AlertOperations.get_active_alerts`: unresolved alerts, optionally filtered
by server (`if server_id:` is Python truthiness, so the empty string applies no
server filter), ordered by `triggered_at` descending. -/
def AlertOperations.get_active_alerts (db : DBState) (server_id : Option String) : List Alert :=
  let base := db.alerts.filter (fun a => !a.is_resolved)
  let filtered := match server_id with
    | some sid => if sid == "" then base else base.filter (fun a => a.server_id == sid)
    | none => base
  List.insertionSort (fun a b : Alert => a.triggered_at ≥ b.triggered_at) filtered

/-- The column assignment of `AlertOperations.resolve_alert`:
`is_resolved = True`, `resolved_at = utcnow()`. -/
def mark_resolved (now : ℚ) (a : Alert) : Alert :=
  { a with is_resolved := true, resolved_at := some now }

/-- The per-row update performed by `AlertOperations.resolve_alert`:
marks the matching row resolved. -/
def resolve_one (alert_id : Nat) (now : ℚ) (a : Alert) : Alert :=
  if a.id == alert_id then mark_resolved now a else a

/-- `AlertOperations.resolve_alert`:
`.filter(Alert.id == alert_id).update({'is_resolved': True, 'resolved_at': utcnow()})`,
returning whether any row was updated. -/
def AlertOperations.resolve_alert (db : DBState) (alert_id : Nat) (now : ℚ) : Bool × DBState :=
  let updated := db.alerts.countP (fun a => a.id == alert_id)
  (decide (0 < updated),
    { db with alerts := db.alerts.map (resolve_one alert_id now) })

/-- The per-row update performed by `AlertOperations.update_webhook_status`:
always sets `webhook_sent = True` and `webhook_sent_at = utcnow()`, and
additionally sets `webhook_response_code` when a code is given. -/
def webhook_update (alert_id : Nat) (response_code : Option Int) (now : ℚ) (a : Alert) : Alert :=
  if a.id == alert_id then
    { a with
      webhook_sent := true
      webhook_sent_at := some now
      webhook_response_code :=
        match response_code with
        | some c => some c
        | none => a.webhook_response_code }
  else a

/-- `AlertOperations.update_webhook_status`:
`.filter(Alert.id == alert_id).update({...})`.  The call is also appended to
the observation log. -/
def AlertOperations.update_webhook_status (db : DBState) (alert_id : Nat)
    (response_code : Option Int) (now : ℚ) : DBState :=
  { db with
    alerts := db.alerts.map (webhook_update alert_id response_code now)
    webhook_log := db.webhook_log ++ [(alert_id, response_code)] }

/-- The field update `HealthStatusOperations.update_health_status` performs on
an existing row: `status_since` is reset exactly on a transition of `status`,
then every listed column is assigned from the (possibly defaulted) arguments. -/
def HealthStatusOperations.apply_update
    (status cpu_status memory_status disk_status connectivity_status : String)
    (last_cpu_usage last_memory_percentage last_disk_usage_max : Option ℚ) (now : ℚ)
    (h : HealthStatus) : HealthStatus :=
  { h with
    status_since := if h.status ≠ status then now else h.status_since
    status := status
    last_check := now
    cpu_status := cpu_status
    memory_status := memory_status
    disk_status := disk_status
    connectivity_status := connectivity_status
    last_cpu_usage := last_cpu_usage
    last_memory_percentage := last_memory_percentage
    last_disk_usage_max := last_disk_usage_max }

/-- The fresh row created by `update_health_status` when no row exists for the
server yet. -/
def HealthStatusOperations.fresh_row
    (server_id status cpu_status memory_status disk_status connectivity_status : String)
    (last_cpu_usage last_memory_percentage last_disk_usage_max : Option ℚ) (now : ℚ) :
    HealthStatus :=
  { server_id := server_id
    status := status
    last_check := now
    status_since := now
    cpu_status := cpu_status
    memory_status := memory_status
    disk_status := disk_status
    connectivity_status := connectivity_status
    last_cpu_usage := last_cpu_usage
    last_memory_percentage := last_memory_percentage
    last_disk_usage_max := last_disk_usage_max }

/-- Upsert on the health-status list: the source queries
`.filter(HealthStatus.server_id == server_id).first()` and mutates that row,
or `session.add`s a fresh one; so the first matching row is replaced, and a
fresh row is appended when none matches. -/
def HealthStatusOperations.upsert_go
    (server_id status cpu_status memory_status disk_status connectivity_status : String)
    (last_cpu_usage last_memory_percentage last_disk_usage_max : Option ℚ) (now : ℚ) :
    List HealthStatus → List HealthStatus
  | [] => [HealthStatusOperations.fresh_row server_id status cpu_status memory_status
      disk_status connectivity_status last_cpu_usage last_memory_percentage
      last_disk_usage_max now]
  | h :: t =>
    if h.server_id == server_id then
      HealthStatusOperations.apply_update status cpu_status memory_status disk_status
        connectivity_status last_cpu_usage last_memory_percentage last_disk_usage_max now h :: t
    else
      h :: HealthStatusOperations.upsert_go server_id status cpu_status memory_status
        disk_status connectivity_status last_cpu_usage last_memory_percentage
        last_disk_usage_max now t

/-- `HealthStatusOperations.update_health_status`.  The Python signature
defaults `cpu_status`/`memory_status`/`disk_status` to `'normal'`,
`connectivity_status` to `'online'` and the three last-value columns to
`None`; callers relying on those defaults are modelled by passing the
default values explicitly. -/
def HealthStatusOperations.update_health_status (db : DBState)
    (server_id status cpu_status memory_status disk_status connectivity_status : String)
    (last_cpu_usage last_memory_percentage last_disk_usage_max : Option ℚ) (now : ℚ) :
    DBState :=
  { db with
    health := HealthStatusOperations.upsert_go server_id status cpu_status memory_status
      disk_status connectivity_status last_cpu_usage last_memory_percentage
      last_disk_usage_max now db.health }

/-- `HealthStatusOperations.get_health_status`: first row for the server. -/
def HealthStatusOperations.get_health_status (db : DBState) (server_id : String) :
    Option HealthStatus :=
  db.health.find? (fun h => h.server_id == server_id)

/-! ## Alert engine (`src/server/alerts/engine.py`) -/

/-- Fixed-point rendering of a rational with one decimal digit, modelling the
`{value:.1f}` f-string interpolation used in alert messages (digit-exact float
rounding is not reproduced; no verified property depends on the digits, only
on the absence of spaces in the rendered number and on the surrounding
message structure). -/
def formatPct (q : ℚ) : String :=
  let n : Int := q.num * 10 / q.den
  toString (n / 10) ++ "." ++ toString (n % 10).natAbs

/-- Message built by `AlertEngine._check_cpu_threshold`:
`f"High CPU usage on {server_id}: {cpu_usage:.1f}%"`. -/
def cpu_alert_message (server_id : String) (cpu_usage : ℚ) : String :=
  "High CPU usage on " ++ server_id ++ ": " ++ formatPct cpu_usage ++ "%"

/-- Message built by `AlertEngine._check_disk_thresholds`:
`f"High disk usage on {server_id}: {percentage:.1f}% ({mountpoint})"`. -/
def disk_alert_message (server_id : String) (percentage : ℚ) (mountpoint : String) : String :=
  "High disk usage on " ++ server_id ++ ": " ++ formatPct percentage ++ "% ("
    ++ mountpoint ++ ")"

/-- Message built by `AlertEngine.check_offline_servers`:
`f"Server {server_id} has been offline for {offline_minutes} minutes"`. -/
def offline_alert_message (server_id : String) (offline_minutes : Int) : String :=
  "Server " ++ server_id ++ " has been offline for " ++ toString offline_minutes ++ " minutes"

/-- The longest suffix of a character list that contains no space: extensionally
this is Python's `s.split(' ')[-1]`, the token after the last space. -/
def suffixAfterLastSpace (l : List Char) : List Char :=
  (l.reverse.takeWhile (fun c => c ≠ ' ')).reverse

/-- `alert.message.split(' ')[-1]`, the dedup key `_check_disk_thresholds`
extracts from an existing disk alert's message. -/
def lastToken (s : String) : String := String.mk (suffixAfterLastSpace s.data)

/-- The `AlertEngine` configuration established in `AlertEngine.__init__`:
webhook sink URLs plus the environment-derived thresholds
(defaults: CPU 90.0, disk 80.0, offline timeout 300 s, webhook timeout 10 s,
3 retry attempts). -/
structure AlertEngine where
  webhook_urls : List String
  cpu_threshold : ℚ
  disk_threshold : ℚ
  offline_timeout : ℚ
  webhook_timeout : Nat
  webhook_retry_attempts : Nat
deriving DecidableEq

/-- The retry loop of `AlertEngine._send_webhook`
(`for attempt in range(self.webhook_retry_attempts)`), over the remaining
attempt indices.  A received response (`net attempt = some code`) always
records its status code through `update_webhook_status`; a code `< 400`
returns success, a code `≥ 400` moves on to the next attempt.  A transport
exception (`net attempt = none`) records the sentinel code `0` exactly when
this was the final attempt (`attempt == retry_attempts - 1`).  After the
loop, failure is returned. -/
def AlertEngine.send_webhook_go (retry_attempts : Nat) (net : Nat → Option Int)
    (alert_id : Nat) (now : ℚ) : List Nat → DBState → Bool × DBState
  | [], db => (false, db)
  | attempt :: rest, db =>
    match net attempt with
    | some status_code =>
      let db' := AlertOperations.update_webhook_status db alert_id (some status_code) now
      if status_code < 400 then (true, db')
      else AlertEngine.send_webhook_go retry_attempts net alert_id now rest db'
    | none =>
      let db' :=
        if attempt == retry_attempts - 1 then
          AlertOperations.update_webhook_status db alert_id (some 0) now
        else db
      AlertEngine.send_webhook_go retry_attempts net alert_id now rest db'

/-- `AlertEngine._send_webhook` for one sink URL, whose per-attempt outcomes
are given by `net`. -/
def AlertEngine.send_webhook (eng : AlertEngine) (net : Nat → Option Int)
    (db : DBState) (alert_id : Nat) (now : ℚ) : Bool × DBState :=
  AlertEngine.send_webhook_go eng.webhook_retry_attempts net alert_id now
    (List.range eng.webhook_retry_attempts) db

/-- `AlertEngine._send_webhook_notifications`: independent fan-out over every
configured sink URL, each with its own outcome function `net url`. -/
def AlertEngine.send_webhook_notifications (eng : AlertEngine)
    (net : String → Nat → Option Int) (db : DBState) (alert_id : Nat) (now : ℚ) : DBState :=
  eng.webhook_urls.foldl (fun d url => (AlertEngine.send_webhook eng (net url) d alert_id now).2) db

/-- `AlertEngine._process_alert`: console logging (no state effect), then
webhook notifications if sinks are configured, then commit. -/
def AlertEngine.process_alert (eng : AlertEngine) (net : String → Nat → Option Int)
    (db : DBState) (alert : Alert) (now : ℚ) : DBState :=
  if eng.webhook_urls.isEmpty then db
  else AlertEngine.send_webhook_notifications eng net db alert.id now

/-- `AlertEngine._check_cpu_threshold`: when `cpu_usage > cpu_threshold`,
create a CPU alert unless an unresolved `'cpu'` alert already exists for the
server; severity is `'warning'` below 95.0 and `'critical'` from 95.0 up. -/
def AlertEngine.check_cpu_threshold (eng : AlertEngine) (db : DBState)
    (metrics : SystemMetrics) (now : ℚ) : Option Alert × DBState :=
  if metrics.cpu_usage > eng.cpu_threshold then
    let existing_alerts := AlertOperations.get_active_alerts db (some metrics.server_id)
    let has_cpu_alert := existing_alerts.any (fun a => a.alert_type == "cpu")
    if !has_cpu_alert then
      let created := AlertOperations.create_alert db metrics.server_id "cpu"
        (if metrics.cpu_usage < 95 then "warning" else "critical")
        (cpu_alert_message metrics.server_id metrics.cpu_usage)
        (some eng.cpu_threshold) (some metrics.cpu_usage) now
      (some created.1, created.2)
    else (none, db)
  else (none, db)

/-- The `for disk in metrics.disk_usage` loop of
`AlertEngine._check_disk_thresholds`.  `existing_keys` is the dict of dedup
keys extracted (via `message.split(' ')[-1]`) from the already-open disk
alerts, computed once before the loop; a disk above threshold creates an
alert unless its key `f"({mountpoint})"` is among them.  Severity is
`'warning'` below 90.0 and `'critical'` from 90.0 up. -/
def AlertEngine.check_disk_go (eng : AlertEngine) (server_id : String)
    (existing_keys : List String) (now : ℚ) :
    List DiskUsage → DBState → List Alert × DBState
  | [], db => ([], db)
  | disk :: rest, db =>
    if disk.percentage > eng.disk_threshold then
      let mountpoint_key := "(" ++ disk.mountpoint ++ ")"
      if !(existing_keys.contains mountpoint_key) then
        let created := AlertOperations.create_alert db server_id "disk"
          (if disk.percentage < 90 then "warning" else "critical")
          (disk_alert_message server_id disk.percentage disk.mountpoint)
          (some eng.disk_threshold) (some disk.percentage) now
        let tail := AlertEngine.check_disk_go eng server_id existing_keys now rest created.2
        (created.1 :: tail.1, tail.2)
      else AlertEngine.check_disk_go eng server_id existing_keys now rest db
    else AlertEngine.check_disk_go eng server_id existing_keys now rest db

/-- `AlertEngine._check_disk_thresholds`. -/
def AlertEngine.check_disk_thresholds (eng : AlertEngine) (db : DBState)
    (metrics : SystemMetrics) (now : ℚ) : List Alert × DBState :=
  let existing_alerts := AlertOperations.get_active_alerts db (some metrics.server_id)
  let existing_disk_keys :=
    (existing_alerts.filter (fun a => a.alert_type == "disk")).map
      (fun a => lastToken a.message)
  AlertEngine.check_disk_go eng metrics.server_id existing_disk_keys now metrics.disk_usage db

/-- `AlertEngine.evaluate_metrics`: CPU check, disk checks, then
`_process_alert` on every triggered alert; returns the triggered alerts. -/
def AlertEngine.evaluate_metrics (eng : AlertEngine) (net : String → Nat → Option Int)
    (db : DBState) (metrics : SystemMetrics) (now : ℚ) : List Alert × DBState :=
  let cpu := AlertEngine.check_cpu_threshold eng db metrics now
  let triggered_cpu : List Alert := match cpu.1 with | some a => [a] | none => []
  let disks := AlertEngine.check_disk_thresholds eng cpu.2 metrics now
  let triggered_alerts := triggered_cpu ++ disks.1
  (triggered_alerts,
    triggered_alerts.foldl (fun d a => AlertEngine.process_alert eng net d a now) disks.2)

/-- The `for server in servers` loop of `AlertEngine.check_offline_servers`:
a server whose `last_seen` is before `now - offline_timeout` and which has no
unresolved `'offline'` alert gets one (severity `'critical'`, threshold the
offline timeout, actual value the seconds since last seen, message carrying
the truncated minute count), which is processed; then the health status is
set to down/offline (the remaining columns taking the Python defaults
`'normal'`/`None`). -/
def AlertEngine.offline_go (eng : AlertEngine) (net : String → Nat → Option Int) (now : ℚ) :
    List Server → DBState → List Alert × DBState
  | [], db => ([], db)
  | server :: rest, db =>
    if server.last_seen < now - eng.offline_timeout then
      let existing_alerts := AlertOperations.get_active_alerts db (some server.server_id)
      let has_offline_alert := existing_alerts.any (fun a => a.alert_type == "offline")
      if !has_offline_alert then
        let offline_minutes : Int := ⌊(now - server.last_seen) / 60⌋
        let created := AlertOperations.create_alert db server.server_id "offline" "critical"
          (offline_alert_message server.server_id offline_minutes)
          (some eng.offline_timeout) (some (now - server.last_seen)) now
        let db2 := AlertEngine.process_alert eng net created.2 created.1 now
        let db3 := HealthStatusOperations.update_health_status db2 server.server_id "down"
          "normal" "normal" "normal" "offline" none none none now
        let tail := AlertEngine.offline_go eng net now rest db3
        (created.1 :: tail.1, tail.2)
      else AlertEngine.offline_go eng net now rest db
    else AlertEngine.offline_go eng net now rest db

/-- `AlertEngine.check_offline_servers`: the liveness sweep over all active
servers. -/
def AlertEngine.check_offline_servers (eng : AlertEngine) (net : String → Nat → Option Int)
    (db : DBState) (now : ℚ) : List Alert × DBState :=
  AlertEngine.offline_go eng net now (ServerOperations.get_all_servers db true) db

/-- The type filter of `AlertEngine.resolve_alerts_for_server`:
`alert_types is None or alert.alert_type in alert_types`. -/
def matches_filter (alert_types : Option (List String)) (a : Alert) : Bool :=
  match alert_types with
  | none => true
  | some ts => ts.contains a.alert_type

/-- The loop of `AlertEngine.resolve_alerts_for_server` over the fetched
active alerts, counting successful `resolve_alert` calls. -/
def AlertEngine.resolve_go (alert_types : Option (List String)) (now : ℚ) :
    List Alert → Nat → DBState → Nat × DBState
  | [], resolved_count, db => (resolved_count, db)
  | alert :: rest, resolved_count, db =>
    if matches_filter alert_types alert then
      let r := AlertOperations.resolve_alert db alert.id now
      AlertEngine.resolve_go alert_types now rest
        (if r.1 then resolved_count + 1 else resolved_count) r.2
    else AlertEngine.resolve_go alert_types now rest resolved_count db

/-- `AlertEngine.resolve_alerts_for_server`. -/
def AlertEngine.resolve_alerts_for_server (db : DBState) (server_id : String)
    (alert_types : Option (List String)) (now : ℚ) : Nat × DBState :=
  AlertEngine.resolve_go alert_types now
    (AlertOperations.get_active_alerts db (some server_id)) 0 db

/-! ## Health classifier (`src/server/health/manager.py`) -/

/-- `HealthThresholds` dataclass with its defaults
(80/90 CPU, 80/90 memory, 70/80 disk, 5 minutes offline timeout). -/
structure HealthThresholds where
  cpu_warning_threshold : ℚ
  cpu_critical_threshold : ℚ
  memory_warning_threshold : ℚ
  memory_critical_threshold : ℚ
  disk_warning_threshold : ℚ
  disk_critical_threshold : ℚ
  offline_timeout_minutes : Nat
deriving DecidableEq

/-- The default `HealthThresholds()`. -/
def defaultHealthThresholds : HealthThresholds :=
  { cpu_warning_threshold := 80
    cpu_critical_threshold := 90
    memory_warning_threshold := 80
    memory_critical_threshold := 90
    disk_warning_threshold := 70
    disk_critical_threshold := 80
    offline_timeout_minutes := 5 }

/-- `HealthStatusManager._evaluate_connectivity`: a missing `last_seen` is
offline; otherwise online exactly when `now - last_seen` is at most
`offline_timeout_minutes` minutes. -/
def HealthStatusManager.evaluate_connectivity (th : HealthThresholds)
    (last_seen : Option ℚ) (now : ℚ) : String :=
  match last_seen with
  | none => "offline"
  | some t =>
    if now - t ≤ (th.offline_timeout_minutes : ℚ) * 60 then "online" else "offline"

/-- `HealthStatusManager._evaluate_cpu_health`: `(status, severity)`. -/
def HealthStatusManager.evaluate_cpu_health (th : HealthThresholds) (cpu_usage : ℚ) :
    String × String :=
  if cpu_usage ≥ th.cpu_critical_threshold then ("critical", "critical")
  else if cpu_usage ≥ th.cpu_warning_threshold then ("warning", "warning")
  else ("normal", "none")

/-- `HealthStatusManager._evaluate_memory_health`. -/
def HealthStatusManager.evaluate_memory_health (th : HealthThresholds)
    (memory_percentage : ℚ) : String × String :=
  if memory_percentage ≥ th.memory_critical_threshold then ("critical", "critical")
  else if memory_percentage ≥ th.memory_warning_threshold then ("warning", "warning")
  else ("normal", "none")

/-- Python's `max(disk.get('percentage', 0) for disk in disk_usage_list)` with
`default=0`: the maximum of the percentages, `0` on an empty list. -/
def max_percentage (disks : List DiskUsage) : ℚ :=
  match disks.map (fun d => d.percentage) with
  | [] => 0
  | p :: ps => ps.foldl max p

/-- `HealthStatusManager._evaluate_disk_health`: empty filesystem list is
normal, otherwise the maximum percentage over all filesystems is compared
against the disk thresholds. -/
def HealthStatusManager.evaluate_disk_health (th : HealthThresholds)
    (disk_usage_list : List DiskUsage) : String × String :=
  if disk_usage_list.isEmpty then ("normal", "none")
  else
    let max_disk_usage := max_percentage disk_usage_list
    if max_disk_usage ≥ th.disk_critical_threshold then ("critical", "critical")
    else if max_disk_usage ≥ th.disk_warning_threshold then ("warning", "warning")
    else ("normal", "none")

/-- `HealthStatusManager._determine_overall_status`: any critical component →
warning; any warning component or a failed service → warning; else healthy.
A reachable-but-degraded host is never classified down. -/
def HealthStatusManager.determine_overall_status
    (cpu_severity memory_severity disk_severity : String)
    (has_failed_services : Bool) : String :=
  let severities := [cpu_severity, memory_severity, disk_severity]
  if severities.contains "critical" then "warning"
  else if severities.contains "warning" || has_failed_services then "warning"
  else "healthy"

/-- `HealthStatusManager.evaluate_server_health`: connectivity first (an
offline server is marked down without any component evaluation), then the
missing-sample case (warning), then component evaluation on the latest
sample.  Every branch returns a classification; the model is a total
function.  `update_health_status` calls that rely on Python defaults pass
the default values (`'normal'`, `None`) explicitly. -/
def HealthStatusManager.evaluate_server_health (th : HealthThresholds) (db : DBState)
    (server_id : String) (now : ℚ) : String × DBState :=
  match ServerOperations.get_server db server_id with
  | none => ("down", db)
  | some server =>
    let connectivity_status := HealthStatusManager.evaluate_connectivity th
      (some server.last_seen) now
    if connectivity_status == "offline" then
      ("down", HealthStatusOperations.update_health_status db server_id "down"
        "normal" "normal" "normal" "offline" none none none now)
    else
      match MetricOperations.get_latest_metrics db server_id 1 with
      | [] =>
        ("warning", HealthStatusOperations.update_health_status db server_id "warning"
          "normal" "normal" "normal" "online" none none none now)
      | metric :: _ =>
        let cpu := HealthStatusManager.evaluate_cpu_health th metric.cpu_usage
        let mem := HealthStatusManager.evaluate_memory_health th metric.memory_percentage
        let dsk := HealthStatusManager.evaluate_disk_health th metric.disk_usage
        let overall_status := HealthStatusManager.determine_overall_status
          cpu.2 mem.2 dsk.2 (decide (0 < metric.failed_services.length))
        let max_disk_usage := max_percentage metric.disk_usage
        (overall_status,
          HealthStatusOperations.update_health_status db server_id overall_status
            cpu.1 mem.1 dsk.1 "online" (some metric.cpu_usage)
            (some metric.memory_percentage) (some max_disk_usage) now)

/-! ## Spec-side classifier (for the refinement claim about classification)

These definitions follow the wording of the specification (§4.1 Steps 3–4)
and are compared with the source-derived classifier above. -/

/-- Spec §4.1 Step 3, one component: value ≥ critical threshold → Critical;
else value ≥ warning threshold → Warning; else Normal. -/
def spec_component_status (warning_threshold critical_threshold value : ℚ) : String :=
  if value ≥ critical_threshold then "critical"
  else if value ≥ warning_threshold then "warning"
  else "normal"

/-- Spec §4.1 Step 3, disk: the maximum percentage across all reported
filesystems (worst-filesystem-wins); an empty filesystem list is Normal. -/
def spec_disk_status (th : HealthThresholds) (disks : List DiskUsage) : String :=
  if disks.isEmpty then "normal"
  else spec_component_status th.disk_warning_threshold th.disk_critical_threshold
    (max_percentage disks)

/-- Spec §4.1 Step 4: overall status is Warning if any component is Critical
or Warning or the sample reports at least one failed service; otherwise
Healthy. -/
def spec_overall_status (th : HealthThresholds) (cpu_usage memory_percentage : ℚ)
    (disks : List DiskUsage) (has_failed_services : Bool) : String :=
  if spec_component_status th.cpu_warning_threshold th.cpu_critical_threshold cpu_usage ≠ "normal"
      ∨ spec_component_status th.memory_warning_threshold th.memory_critical_threshold
          memory_percentage ≠ "normal"
      ∨ spec_disk_status th disks ≠ "normal"
      ∨ has_failed_services = true
  then "warning" else "healthy"

/-- The source classifier for an online host with a sample, as composed by
`evaluate_server_health`: a pure function of the sample fields and the
thresholds. -/
def classify_online (th : HealthThresholds) (cpu_usage memory_percentage : ℚ)
    (disks : List DiskUsage) (has_failed_services : Bool) : String :=
  HealthStatusManager.determine_overall_status
    (HealthStatusManager.evaluate_cpu_health th cpu_usage).2
    (HealthStatusManager.evaluate_memory_health th memory_percentage).2
    (HealthStatusManager.evaluate_disk_health th disks).2
    has_failed_services

/-! ## Helper lemmas -/

theorem suffixAfterLastSpace_append (a b : List Char) (hb : ∀ c ∈ b, c ≠ ' ') :
    suffixAfterLastSpace (a ++ ' ' :: b) = b := by
  unfold suffixAfterLastSpace
  rw [List.reverse_append, List.reverse_cons, List.append_assoc,
    List.takeWhile_append_of_pos (by
      intro x hx
      simpa using hb x (List.mem_reverse.mp hx)),
    List.singleton_append,
    List.takeWhile_cons_of_neg (by simp), List.append_nil, List.reverse_reverse]

/-- `split(' ')[-1]` of a string whose final space is followed by the
space-free string `t` is `t`. -/
theorem lastToken_eq_of_data (s t : String) (a : List Char)
    (hs : s.data = a ++ ' ' :: t.data) (h : ∀ c ∈ t.data, c ≠ ' ') : lastToken s = t := by
  unfold lastToken
  rw [hs, suffixAfterLastSpace_append _ _ h]

/-- For a mountpoint without spaces, the dedup key the engine extracts from a
disk alert message is exactly the parenthesised mountpoint. -/
theorem lastToken_disk_alert_message (sid : String) (pct : ℚ) (mp : String)
    (h : ∀ c ∈ mp.data, c ≠ ' ') :
    lastToken (disk_alert_message sid pct mp) = "(" ++ mp ++ ")" := by
  apply lastToken_eq_of_data _ _
    (("High disk usage on " ++ sid ++ ": " ++ formatPct pct ++ "%").data)
  · simp [disk_alert_message, String.data_append,
      show ("% (" : String).data = ['%', ' ', '('] from rfl,
      show (")" : String).data = [')'] from rfl,
      show ("%" : String).data = ['%'] from rfl,
      show ("(" : String).data = ['('] from rfl]
  · intro c hc
    simp [String.data_append,
      show ("(" : String).data = ['('] from rfl,
      show (")" : String).data = [')'] from rfl] at hc
    rcases hc with hc | hc | hc
    · subst hc; decide
    · exact h c hc
    · subst hc; decide

/-- The parenthesised mountpoint key determines the mountpoint. -/
theorem mountpoint_key_injective (a b : String)
    (h : ("(" ++ a ++ ")" : String) = "(" ++ b ++ ")") : a = b := by
  have hd := congrArg String.data h
  simp [String.data_append] at hd
  exact congrArg String.mk hd

theorem filter_map_comm {α : Type} (p : α → Bool) (f : α → α) (l : List α)
    (hpf : ∀ x, p (f x) = p x) : (l.map f).filter p = (l.filter p).map f := by
  induction l with
  | nil => rfl
  | cons x xs ih =>
    by_cases hx : p x
    · simp [List.filter_cons, hpf, hx, ih]
    · simp [List.filter_cons, hpf, hx, ih]

theorem mem_get_active_alerts {db : DBState} {sid : String} {a : Alert} :
    a ∈ AlertOperations.get_active_alerts db (some sid)
      ↔ a ∈ db.alerts ∧ a.is_resolved = false ∧ (sid = "" ∨ a.server_id = sid) := by
  unfold AlertOperations.get_active_alerts
  rw [List.Perm.mem_iff (List.perm_insertionSort _ _)]
  by_cases h : sid = ""
  · subst h
    simp [List.mem_filter]
  · simp [List.mem_filter, h, beq_iff_eq, and_assoc, and_comm]

/-- The unresolved alerts of one server with one alert type: the list the
deduplication guards and the offline sweep reason about. -/
def open_alerts_of (db : DBState) (h ty : String) : List Alert :=
  db.alerts.filter (fun a => a.server_id == h && a.alert_type == ty && !a.is_resolved)

theorem mem_open_alerts_of {db : DBState} {h ty : String} {a : Alert} :
    a ∈ open_alerts_of db h ty
      ↔ a ∈ db.alerts ∧ a.server_id = h ∧ a.alert_type = ty ∧ a.is_resolved = false := by
  unfold open_alerts_of
  simp [List.mem_filter, and_assoc]

/-- A database transition that only touches webhook bookkeeping: servers,
metrics, health rows and the id counter are unchanged, and the alert rows are
mapped by a function preserving every column except the webhook ones. -/
def webhook_only_change (db db' : DBState) : Prop :=
  db'.servers = db.servers ∧ db'.metrics = db.metrics ∧ db'.health = db.health ∧
  db'.next_alert_id = db.next_alert_id ∧
  ∃ f : Alert → Alert, db'.alerts = db.alerts.map f ∧
    ∀ a : Alert, (f a).id = a.id ∧ (f a).server_id = a.server_id ∧
      (f a).alert_type = a.alert_type ∧ (f a).severity = a.severity ∧
      (f a).message = a.message ∧ (f a).threshold_value = a.threshold_value ∧
      (f a).actual_value = a.actual_value ∧ (f a).triggered_at = a.triggered_at ∧
      (f a).resolved_at = a.resolved_at ∧ (f a).is_resolved = a.is_resolved

theorem webhook_only_change_refl (db : DBState) : webhook_only_change db db := by
  refine ⟨rfl, rfl, rfl, rfl, id, ?_, ?_⟩
  · simp
  · intro a; simp

theorem webhook_only_change_trans {db1 db2 db3 : DBState}
    (h12 : webhook_only_change db1 db2) (h23 : webhook_only_change db2 db3) :
    webhook_only_change db1 db3 := by
  obtain ⟨hs12, hm12, hh12, hn12, f, hf, hfp⟩ := h12
  obtain ⟨hs23, hm23, hh23, hn23, g, hg, hgp⟩ := h23
  refine ⟨hs23.trans hs12, hm23.trans hm12, hh23.trans hh12, hn23.trans hn12,
    g ∘ f, ?_, ?_⟩
  · rw [hg, hf, List.map_map]
  · intro a
    have h1 := hfp a
    have h2 := hgp (f a)
    simp only [Function.comp]
    exact ⟨(h2.1).trans h1.1, (h2.2.1).trans h1.2.1, (h2.2.2.1).trans h1.2.2.1,
      (h2.2.2.2.1).trans h1.2.2.2.1, (h2.2.2.2.2.1).trans h1.2.2.2.2.1,
      (h2.2.2.2.2.2.1).trans h1.2.2.2.2.2.1,
      (h2.2.2.2.2.2.2.1).trans h1.2.2.2.2.2.2.1,
      (h2.2.2.2.2.2.2.2.1).trans h1.2.2.2.2.2.2.2.1,
      (h2.2.2.2.2.2.2.2.2.1).trans h1.2.2.2.2.2.2.2.2.1,
      (h2.2.2.2.2.2.2.2.2.2).trans h1.2.2.2.2.2.2.2.2.2⟩

theorem webhook_update_fields (alert_id : Nat) (response_code : Option Int) (now : ℚ)
    (a : Alert) :
    (webhook_update alert_id response_code now a).id = a.id ∧
    (webhook_update alert_id response_code now a).server_id = a.server_id ∧
    (webhook_update alert_id response_code now a).alert_type = a.alert_type ∧
    (webhook_update alert_id response_code now a).severity = a.severity ∧
    (webhook_update alert_id response_code now a).message = a.message ∧
    (webhook_update alert_id response_code now a).threshold_value = a.threshold_value ∧
    (webhook_update alert_id response_code now a).actual_value = a.actual_value ∧
    (webhook_update alert_id response_code now a).triggered_at = a.triggered_at ∧
    (webhook_update alert_id response_code now a).resolved_at = a.resolved_at ∧
    (webhook_update alert_id response_code now a).is_resolved = a.is_resolved := by
  unfold webhook_update
  by_cases h : (a.id == alert_id) = true
  · simp [h]
  · simp [h]

theorem update_webhook_status_woc (db : DBState) (alert_id : Nat)
    (response_code : Option Int) (now : ℚ) :
    webhook_only_change db (AlertOperations.update_webhook_status db alert_id response_code now) := by
  refine ⟨rfl, rfl, rfl, rfl, webhook_update alert_id response_code now, rfl, ?_⟩
  exact webhook_update_fields alert_id response_code now

theorem send_webhook_go_woc (retry_attempts : Nat) (net : Nat → Option Int)
    (alert_id : Nat) (now : ℚ) (atts : List Nat) (db : DBState) :
    webhook_only_change db
      (AlertEngine.send_webhook_go retry_attempts net alert_id now atts db).2 := by
  induction atts generalizing db with
  | nil => exact webhook_only_change_refl db
  | cons i rest ih =>
    unfold AlertEngine.send_webhook_go
    match hnet : net i with
    | some status_code =>
      by_cases hlt : status_code < 400
      · simpa [hnet, hlt] using update_webhook_status_woc db alert_id (some status_code) now
      · simpa [hnet, hlt] using
          webhook_only_change_trans (update_webhook_status_woc db alert_id (some status_code) now)
            (ih _)
    | none =>
      by_cases hfin : (i == retry_attempts - 1) = true
      · simpa [hnet, hfin] using
          webhook_only_change_trans (update_webhook_status_woc db alert_id (some 0) now) (ih _)
      · simpa [hnet, hfin] using ih db

theorem send_webhook_notifications_woc (eng : AlertEngine) (net : String → Nat → Option Int)
    (db : DBState) (alert_id : Nat) (now : ℚ) :
    webhook_only_change db
      (AlertEngine.send_webhook_notifications eng net db alert_id now) := by
  unfold AlertEngine.send_webhook_notifications
  induction eng.webhook_urls generalizing db with
  | nil => exact webhook_only_change_refl db
  | cons u us ih =>
    rw [List.foldl_cons]
    exact webhook_only_change_trans (send_webhook_go_woc _ _ _ _ _ _) (ih _)

theorem process_alert_woc (eng : AlertEngine) (net : String → Nat → Option Int)
    (db : DBState) (alert : Alert) (now : ℚ) :
    webhook_only_change db (AlertEngine.process_alert eng net db alert now) := by
  unfold AlertEngine.process_alert
  by_cases h : eng.webhook_urls.isEmpty
  · simpa [h] using webhook_only_change_refl db
  · simpa [h] using send_webhook_notifications_woc eng net db alert.id now

/-- A webhook-only change maps the open alerts of any (server, type) pair
one-for-one, preserving every non-webhook column. -/
theorem open_alerts_of_woc {db db' : DBState} (h : webhook_only_change db db')
    (hst : String) (ty : String) :
    ∃ f : Alert → Alert, open_alerts_of db' hst ty = (open_alerts_of db hst ty).map f ∧
      ∀ a : Alert, (f a).severity = a.severity ∧ (f a).threshold_value = a.threshold_value ∧
        (f a).actual_value = a.actual_value := by
  obtain ⟨_, _, _, _, f, hf, hfp⟩ := h
  refine ⟨f, ?_, fun a => ⟨(hfp a).2.2.2.1, (hfp a).2.2.2.2.2.1, (hfp a).2.2.2.2.2.2.1⟩⟩
  unfold open_alerts_of
  rw [hf]
  exact filter_map_comm _ f db.alerts (by
    intro x
    have hx := hfp x
    simp [hx.2.1, hx.2.2.1, hx.2.2.2.2.2.2.2.2.2])

theorem open_alerts_of_woc_length {db db' : DBState} (h : webhook_only_change db db')
    (hst ty : String) :
    (open_alerts_of db' hst ty).length = (open_alerts_of db hst ty).length := by
  obtain ⟨f, hf, -⟩ := open_alerts_of_woc h hst ty
  rw [hf, List.length_map]

theorem open_alerts_of_woc_fields {db db' : DBState} (h : webhook_only_change db db')
    (hst ty sev : String) (thv act : Option ℚ)
    (hall : ∀ a ∈ open_alerts_of db hst ty,
      a.severity = sev ∧ a.threshold_value = thv ∧ a.actual_value = act) :
    ∀ a ∈ open_alerts_of db' hst ty,
      a.severity = sev ∧ a.threshold_value = thv ∧ a.actual_value = act := by
  obtain ⟨f, hf, hfp⟩ := open_alerts_of_woc h hst ty
  rw [hf]
  intro a ha
  obtain ⟨b, hb, rfl⟩ := List.mem_map.mp ha
  obtain ⟨h1, h2, h3⟩ := hall b hb
  obtain ⟨g1, g2, g3⟩ := hfp b
  exact ⟨g1.trans h1, g2.trans h2, g3.trans h3⟩

theorem open_alerts_of_create_other (db : DBState)
    (server_id alert_type severity message : String) (thv act : Option ℚ) (now : ℚ)
    (hst ty : String) (hne : server_id ≠ hst ∨ alert_type ≠ ty) :
    open_alerts_of
      (AlertOperations.create_alert db server_id alert_type severity message thv act now).2
      hst ty = open_alerts_of db hst ty := by
  unfold open_alerts_of AlertOperations.create_alert
  simp only [List.filter_append]
  rcases hne with hne | hne
  · simp [hne]
  · simp [hne]

theorem open_alerts_of_create_match (db : DBState)
    (severity message : String) (thv act : Option ℚ) (now : ℚ) (hst ty : String) :
    open_alerts_of (AlertOperations.create_alert db hst ty severity message thv act now).2
      hst ty
      = open_alerts_of db hst ty
        ++ [(AlertOperations.create_alert db hst ty severity message thv act now).1] := by
  unfold open_alerts_of AlertOperations.create_alert
  simp [List.filter_append]

theorem open_alerts_of_update_health (db : DBState)
    (server_id status cpu_status memory_status disk_status connectivity_status : String)
    (lc lm ld : Option ℚ) (now : ℚ) (hst ty : String) :
    open_alerts_of (HealthStatusOperations.update_health_status db server_id status
      cpu_status memory_status disk_status connectivity_status lc lm ld now) hst ty
      = open_alerts_of db hst ty := rfl

theorem upsert_go_find_self
    (server_id status cpu_status memory_status disk_status connectivity_status : String)
    (lc lm ld : Option ℚ) (now : ℚ) (l : List HealthStatus) :
    ∃ hs, (HealthStatusOperations.upsert_go server_id status cpu_status memory_status
        disk_status connectivity_status lc lm ld now l).find?
        (fun h => h.server_id == server_id) = some hs ∧
      hs.server_id = server_id ∧ hs.status = status ∧ hs.cpu_status = cpu_status ∧
      hs.memory_status = memory_status ∧ hs.disk_status = disk_status ∧
      hs.connectivity_status = connectivity_status ∧ hs.last_cpu_usage = lc ∧
      hs.last_memory_percentage = lm ∧ hs.last_disk_usage_max = ld := by
  induction l with
  | nil =>
    unfold HealthStatusOperations.upsert_go
    refine ⟨HealthStatusOperations.fresh_row server_id status cpu_status memory_status
      disk_status connectivity_status lc lm ld now, ?_, ?_⟩
    · rw [List.find?_cons]
      have : ((HealthStatusOperations.fresh_row server_id status cpu_status memory_status
          disk_status connectivity_status lc lm ld now).server_id == server_id) = true := by
        simp [HealthStatusOperations.fresh_row]
      rw [this]
    · simp [HealthStatusOperations.fresh_row]
  | cons h t ih =>
    unfold HealthStatusOperations.upsert_go
    by_cases hh : (h.server_id == server_id) = true
    · rw [if_pos hh]
      have hp : ((HealthStatusOperations.apply_update status cpu_status memory_status
          disk_status connectivity_status lc lm ld now h).server_id == server_id) = true := by
        simpa [HealthStatusOperations.apply_update] using hh
      refine ⟨HealthStatusOperations.apply_update status cpu_status memory_status
        disk_status connectivity_status lc lm ld now h, ?_, ?_⟩
      · rw [List.find?_cons, hp]
      · simp [HealthStatusOperations.apply_update, beq_iff_eq.mp hh]
    · rw [if_neg hh]
      obtain ⟨hs, hfind, hprops⟩ := ih
      have hh' : (h.server_id == server_id) = false := by simpa using hh
      refine ⟨hs, ?_, hprops⟩
      rw [List.find?_cons, hh']
      exact hfind

theorem upsert_go_find_other
    (server_id status cpu_status memory_status disk_status connectivity_status : String)
    (lc lm ld : Option ℚ) (now : ℚ) (l : List HealthStatus) (sid : String)
    (hne : server_id ≠ sid) :
    (HealthStatusOperations.upsert_go server_id status cpu_status memory_status
        disk_status connectivity_status lc lm ld now l).find?
        (fun h => h.server_id == sid)
      = l.find? (fun h => h.server_id == sid) := by
  induction l with
  | nil =>
    unfold HealthStatusOperations.upsert_go
    rw [List.find?_cons]
    have : ((HealthStatusOperations.fresh_row server_id status cpu_status memory_status
        disk_status connectivity_status lc lm ld now).server_id == sid) = false := by
      simp [HealthStatusOperations.fresh_row, hne]
    rw [this]
  | cons h t ih =>
    unfold HealthStatusOperations.upsert_go
    by_cases hh : (h.server_id == server_id) = true
    · have hhs : h.server_id = server_id := beq_iff_eq.mp hh
      have h1 : ((HealthStatusOperations.apply_update status cpu_status memory_status
          disk_status connectivity_status lc lm ld now h).server_id == sid) = false := by
        simp [HealthStatusOperations.apply_update, hhs, hne]
      have h2 : (h.server_id == sid) = false := by simp [hhs, hne]
      rw [if_pos hh, List.find?_cons, h1, List.find?_cons, h2]
    · rw [if_neg hh]
      by_cases hsid : (h.server_id == sid) = true
      · rw [List.find?_cons, hsid, List.find?_cons, hsid]
      · have hsid' : (h.server_id == sid) = false := by simpa using hsid
        rw [List.find?_cons, hsid', List.find?_cons, hsid']
        exact ih

theorem get_health_status_update_self (db : DBState)
    (server_id status cpu_status memory_status disk_status connectivity_status : String)
    (lc lm ld : Option ℚ) (now : ℚ) :
    ∃ hs, HealthStatusOperations.get_health_status
        (HealthStatusOperations.update_health_status db server_id status cpu_status
          memory_status disk_status connectivity_status lc lm ld now) server_id = some hs ∧
      hs.server_id = server_id ∧ hs.status = status ∧ hs.cpu_status = cpu_status ∧
      hs.memory_status = memory_status ∧ hs.disk_status = disk_status ∧
      hs.connectivity_status = connectivity_status ∧ hs.last_cpu_usage = lc ∧
      hs.last_memory_percentage = lm ∧ hs.last_disk_usage_max = ld :=
  upsert_go_find_self server_id status cpu_status memory_status disk_status
    connectivity_status lc lm ld now db.health

theorem get_health_status_update_other (db : DBState)
    (server_id status cpu_status memory_status disk_status connectivity_status : String)
    (lc lm ld : Option ℚ) (now : ℚ) (sid : String) (hne : server_id ≠ sid) :
    HealthStatusOperations.get_health_status
      (HealthStatusOperations.update_health_status db server_id status cpu_status
        memory_status disk_status connectivity_status lc lm ld now) sid
      = HealthStatusOperations.get_health_status db sid :=
  upsert_go_find_other server_id status cpu_status memory_status disk_status
    connectivity_status lc lm ld now db.health sid hne

theorem get_health_status_woc {db db' : DBState} (h : webhook_only_change db db')
    (sid : String) :
    HealthStatusOperations.get_health_status db' sid
      = HealthStatusOperations.get_health_status db sid := by
  unfold HealthStatusOperations.get_health_status
  rw [h.2.2.1]

/-- Characterisation of a CPU alert returned by `_check_cpu_threshold`. -/
theorem check_cpu_threshold_some (eng : AlertEngine) (db : DBState)
    (metrics : SystemMetrics) (now : ℚ) (a : Alert)
    (ha : (AlertEngine.check_cpu_threshold eng db metrics now).1 = some a) :
    eng.cpu_threshold < metrics.cpu_usage ∧
    a.server_id = metrics.server_id ∧ a.alert_type = "cpu" ∧
    a.severity = (if metrics.cpu_usage < 95 then "warning" else "critical") ∧
    a.message = cpu_alert_message metrics.server_id metrics.cpu_usage ∧
    a.threshold_value = some eng.cpu_threshold ∧
    a.actual_value = some metrics.cpu_usage ∧ a.is_resolved = false := by
  unfold AlertEngine.check_cpu_threshold at ha
  by_cases h1 : metrics.cpu_usage > eng.cpu_threshold
  · rw [if_pos h1] at ha
    by_cases hb : ((AlertOperations.get_active_alerts db (some metrics.server_id)).any
        (fun x => x.alert_type == "cpu")) = true
    · simp [hb] at ha
    · have hb' : ((AlertOperations.get_active_alerts db (some metrics.server_id)).any
          (fun x => x.alert_type == "cpu")) = false := by simpa using hb
      simp only [hb', AlertOperations.create_alert, Bool.not_false, if_true,
        Option.some.injEq] at ha
      subst ha
      exact ⟨h1, rfl, rfl, rfl, rfl, rfl, rfl, rfl⟩
  · rw [if_neg h1] at ha
    exact absurd ha (by simp)

/-- When an unresolved CPU alert for the server already exists,
`_check_cpu_threshold` creates nothing and leaves the state unchanged. -/
theorem check_cpu_threshold_dedup (eng : AlertEngine) (db : DBState)
    (metrics : SystemMetrics) (now : ℚ)
    (hex : ∃ a ∈ db.alerts, a.server_id = metrics.server_id ∧ a.alert_type = "cpu"
      ∧ a.is_resolved = false) :
    AlertEngine.check_cpu_threshold eng db metrics now = (none, db) := by
  unfold AlertEngine.check_cpu_threshold
  by_cases h1 : eng.cpu_threshold < metrics.cpu_usage
  · obtain ⟨a, hmem, hsid, hty, hres⟩ := hex
    have hin : a ∈ AlertOperations.get_active_alerts db (some metrics.server_id) :=
      mem_get_active_alerts.mpr ⟨hmem, hres, Or.inr hsid⟩
    have hany : (AlertOperations.get_active_alerts db (some metrics.server_id)).any
        (fun a => a.alert_type == "cpu") = true :=
      List.any_eq_true.mpr ⟨a, hin, by simp [hty]⟩
    rw [if_pos h1]
    simp [hany]
  · rw [if_neg h1]

/-- `_check_cpu_threshold` never removes alert rows. -/
theorem check_cpu_threshold_alerts_mono (eng : AlertEngine) (db : DBState)
    (metrics : SystemMetrics) (now : ℚ) (a : Alert) (ha : a ∈ db.alerts) :
    a ∈ (AlertEngine.check_cpu_threshold eng db metrics now).2.alerts := by
  unfold AlertEngine.check_cpu_threshold
  by_cases h1 : metrics.cpu_usage > eng.cpu_threshold
  · rw [if_pos h1]
    by_cases hb : ((AlertOperations.get_active_alerts db (some metrics.server_id)).any
        (fun x => x.alert_type == "cpu")) = true
    · simpa [hb] using ha
    · have hb' : ((AlertOperations.get_active_alerts db (some metrics.server_id)).any
          (fun x => x.alert_type == "cpu")) = false := by simpa using hb
      simp [hb', AlertOperations.create_alert]
      exact Or.inl ha
  · rw [if_neg h1]
    exact ha

/-- Characterisation of the disk alerts returned by the
`_check_disk_thresholds` loop: each comes from a reported filesystem above
threshold whose mountpoint key was not among the existing dedup keys. -/
theorem check_disk_go_mem (eng : AlertEngine) (sid : String) (keys : List String)
    (now : ℚ) (disks : List DiskUsage) (db : DBState) (a : Alert)
    (ha : a ∈ (AlertEngine.check_disk_go eng sid keys now disks db).1) :
    ∃ d ∈ disks, eng.disk_threshold < d.percentage ∧
      keys.contains ("(" ++ d.mountpoint ++ ")") = false ∧
      a.server_id = sid ∧ a.alert_type = "disk" ∧
      a.severity = (if d.percentage < 90 then "warning" else "critical") ∧
      a.message = disk_alert_message sid d.percentage d.mountpoint ∧
      a.threshold_value = some eng.disk_threshold ∧
      a.actual_value = some d.percentage ∧ a.is_resolved = false := by
  induction disks generalizing db with
  | nil => simp [AlertEngine.check_disk_go] at ha
  | cons d rest ih =>
    unfold AlertEngine.check_disk_go at ha
    by_cases h1 : d.percentage > eng.disk_threshold
    · rw [if_pos h1] at ha
      by_cases hk : (keys.contains ("(" ++ d.mountpoint ++ ")")) = true
      · simp only [hk, Bool.not_true, Bool.false_eq_true, if_false] at ha
        obtain ⟨d', hd', hprops⟩ := ih _ ha
        exact ⟨d', List.mem_cons_of_mem _ hd', hprops⟩
      · have hk' : (keys.contains ("(" ++ d.mountpoint ++ ")")) = false := by simpa using hk
        simp only [hk', AlertOperations.create_alert, Bool.not_false, if_true] at ha
        rcases List.mem_cons.mp ha with rfl | hrest
        · exact ⟨d, List.mem_cons_self _ _, h1, hk', rfl, rfl, rfl, rfl, rfl, rfl, rfl⟩
        · obtain ⟨d', hd', hprops⟩ := ih _ hrest
          exact ⟨d', List.mem_cons_of_mem _ hd', hprops⟩
    · rw [if_neg h1] at ha
      obtain ⟨d', hd', hprops⟩ := ih _ ha
      exact ⟨d', List.mem_cons_of_mem _ hd', hprops⟩

/-- When every reported filesystem is strictly below the disk threshold, the
disk loop creates nothing and leaves the state unchanged. -/
theorem check_disk_go_below (eng : AlertEngine) (sid : String) (keys : List String)
    (now : ℚ) (disks : List DiskUsage) (db : DBState)
    (hdisk : ∀ d ∈ disks, d.percentage < eng.disk_threshold) :
    AlertEngine.check_disk_go eng sid keys now disks db = ([], db) := by
  induction disks with
  | nil => rfl
  | cons d rest ih =>
    unfold AlertEngine.check_disk_go
    rw [if_neg (lt_asymm (hdisk d (List.mem_cons_self _ _)))]
    exact ih (fun d' hd' => hdisk d' (List.mem_cons_of_mem _ hd'))

/-- The alert list returned by `evaluate_metrics`: the optional CPU alert
followed by the disk alerts (evaluated on the state left by the CPU check). -/
theorem evaluate_metrics_fst (eng : AlertEngine) (net : String → Nat → Option Int)
    (db : DBState) (metrics : SystemMetrics) (now : ℚ) :
    (AlertEngine.evaluate_metrics eng net db metrics now).1
      = (match (AlertEngine.check_cpu_threshold eng db metrics now).1 with
          | some a => [a]
          | none => [])
        ++ (AlertEngine.check_disk_thresholds eng
            (AlertEngine.check_cpu_threshold eng db metrics now).2 metrics now).1 := rfl

/-! ## C5: below both thresholds, `evaluate` is a no-op -/

/-- C5.  For every sample whose `cpu_usage` is strictly below `cpu_threshold`
and all of whose disk percentages are strictly below `disk_threshold`,
`evaluate_metrics` returns an empty alert list and leaves the database
unchanged: no alert is created or dispatched. -/
theorem evaluate_metrics_below_thresholds (eng : AlertEngine)
    (net : String → Nat → Option Int) (db : DBState) (metrics : SystemMetrics) (now : ℚ)
    (hcpu : metrics.cpu_usage < eng.cpu_threshold)
    (hdisk : ∀ d ∈ metrics.disk_usage, d.percentage < eng.disk_threshold) :
    AlertEngine.evaluate_metrics eng net db metrics now = ([], db) := by
  have h1 : AlertEngine.check_cpu_threshold eng db metrics now = (none, db) := by
    unfold AlertEngine.check_cpu_threshold
    rw [if_neg (lt_asymm hcpu)]
  have h2 : ∀ keys, AlertEngine.check_disk_go eng metrics.server_id keys now
      metrics.disk_usage db = ([], db) :=
    fun keys => check_disk_go_below eng metrics.server_id keys now metrics.disk_usage db hdisk
  unfold AlertEngine.evaluate_metrics AlertEngine.check_disk_thresholds
  simp [h1, h2]

/-- C5 witness input: a quiet sample. -/
def metrics_quiet : SystemMetrics :=
  { server_id := "srv1"
    timestamp := "2024-01-01T00:00:00Z"
    cpu_usage := 10
    memory := { total := 100, used := 10, percentage := 10 }
    disk_usage := [{ mountpoint := "/", total := 100, used := 40, percentage := 40 }]
    load_average := { one_min := 0, five_min := 0, fifteen_min := 0 }
    uptime := 5
    failed_services := [] }

/-- Engine configuration with the default thresholds
(CPU 90, disk 80, offline timeout 300 s, 3 webhook attempts) and no sinks. -/
def eng_default : AlertEngine :=
  { webhook_urls := []
    cpu_threshold := 90
    disk_threshold := 80
    offline_timeout := 300
    webhook_timeout := 10
    webhook_retry_attempts := 3 }

/-- An empty database. -/
def db_empty : DBState :=
  { servers := [], metrics := [], alerts := [], health := [], next_alert_id := 1,
    webhook_log := [] }

/-- A network function on which every attempt raises. -/
def net_none : String → Nat → Option Int := fun _ _ => none

theorem evaluate_metrics_below_thresholds_witness :
    metrics_quiet.cpu_usage < eng_default.cpu_threshold
    ∧ (∀ d ∈ metrics_quiet.disk_usage, d.percentage < eng_default.disk_threshold)
    ∧ AlertEngine.evaluate_metrics eng_default net_none db_empty metrics_quiet 0
        = ([], db_empty) :=
  ⟨by decide, by decide,
    evaluate_metrics_below_thresholds eng_default net_none db_empty metrics_quiet 0
      (by decide) (by decide)⟩

theorem severity_if_iff (v cut : ℚ) :
    ((if v < cut then "warning" else "critical") = "critical" ↔ cut ≤ v)
    ∧ ((if v < cut then "warning" else "critical") = "warning" ↔ v < cut) := by
  rcases lt_or_ge v cut with h | h
  · rw [if_pos h]
    exact ⟨iff_of_false (by decide) (not_le.mpr h), iff_of_true rfl h⟩
  · rw [if_neg (not_lt.mpr h)]
    exact ⟨iff_of_true rfl h, iff_of_false (by decide) (not_lt.mpr h)⟩

/-! ## C6: created alerts carry threshold/actual values and tiered severity -/

/-- Scenario 1 input: `cpu_usage = 95.0`. -/
def metrics_cpu95 : SystemMetrics :=
  { server_id := "srv1"
    timestamp := "2024-01-01T00:00:00Z"
    cpu_usage := 95
    memory := { total := 100, used := 10, percentage := 10 }
    disk_usage := []
    load_average := { one_min := 0, five_min := 0, fifteen_min := 0 }
    uptime := 5
    failed_services := [] }

/-- Scenario 2 input: one filesystem at 85 %. -/
def metrics_disk85 : SystemMetrics :=
  { server_id := "srv1"
    timestamp := "2024-01-01T00:00:00Z"
    cpu_usage := 10
    memory := { total := 100, used := 10, percentage := 10 }
    disk_usage := [{ mountpoint := "/", total := 100, used := 85, percentage := 85 }]
    load_average := { one_min := 0, five_min := 0, fifteen_min := 0 }
    uptime := 5
    failed_services := [] }

/-- C6.  Every alert returned by `evaluate_metrics` records the configured
threshold and the actual metric value, and is `critical` exactly when the
value reaches the critical sub-threshold (CPU 95, disk 90), `warning`
otherwise.  In particular (Scenario 1) a sample with `cpu_usage = 95.0` over
the crossed default CPU threshold yields exactly one `cpu` alert with
severity `critical` and actual value 95, and (Scenario 2) a disk at 85 % over
the crossed default disk threshold yields exactly one `warning` `disk` alert
for mountpoint `/`. -/
theorem evaluate_metrics_alert_values :
    (∀ (eng : AlertEngine) (net : String → Nat → Option Int) (db : DBState)
      (metrics : SystemMetrics) (now : ℚ),
      ∀ a ∈ (AlertEngine.evaluate_metrics eng net db metrics now).1,
        (a.alert_type = "cpu" ∧ a.threshold_value = some eng.cpu_threshold ∧
          a.actual_value = some metrics.cpu_usage ∧
          (a.severity = "critical" ↔ 95 ≤ metrics.cpu_usage) ∧
          (a.severity = "warning" ↔ metrics.cpu_usage < 95))
        ∨ (a.alert_type = "disk" ∧ a.threshold_value = some eng.disk_threshold ∧
            ∃ d ∈ metrics.disk_usage, a.actual_value = some d.percentage ∧
              (a.severity = "critical" ↔ 90 ≤ d.percentage) ∧
              (a.severity = "warning" ↔ d.percentage < 90)))
    ∧ ((AlertEngine.evaluate_metrics eng_default net_none db_empty metrics_cpu95 0).1.length = 1
        ∧ ∀ a ∈ (AlertEngine.evaluate_metrics eng_default net_none db_empty metrics_cpu95 0).1,
            a.alert_type = "cpu" ∧ a.severity = "critical" ∧ a.actual_value = some 95
              ∧ a.threshold_value = some 90)
    ∧ ((AlertEngine.evaluate_metrics eng_default net_none db_empty metrics_disk85 0).1.length = 1
        ∧ ∀ a ∈ (AlertEngine.evaluate_metrics eng_default net_none db_empty metrics_disk85 0).1,
            a.alert_type = "disk" ∧ a.severity = "warning" ∧ a.actual_value = some 85
              ∧ a.threshold_value = some 80
              ∧ a.message = disk_alert_message "srv1" 85 "/") := by
  refine ⟨?_, by decide, by decide⟩
  intro eng net db metrics now a ha
  rw [evaluate_metrics_fst] at ha
  rcases List.mem_append.mp ha with hcpu | hdisk
  · cases hc : (AlertEngine.check_cpu_threshold eng db metrics now).1 with
    | none => rw [hc] at hcpu; simp at hcpu
    | some c =>
      rw [hc] at hcpu
      simp only [List.mem_singleton] at hcpu
      subst hcpu
      obtain ⟨-, -, hty, hsev, -, hthv, hact, -⟩ :=
        check_cpu_threshold_some eng db metrics now a hc
      refine Or.inl ⟨hty, hthv, hact, ?_, ?_⟩
      · rw [hsev]; exact (severity_if_iff _ _).1
      · rw [hsev]; exact (severity_if_iff _ _).2
  · unfold AlertEngine.check_disk_thresholds at hdisk
    obtain ⟨d, hd, -, -, -, hty, hsev, -, hthv, hact, -⟩ :=
      check_disk_go_mem eng metrics.server_id _ now metrics.disk_usage _ a hdisk
    refine Or.inr ⟨hty, hthv, d, hd, hact, ?_, ?_⟩
    · rw [hsev]; exact (severity_if_iff _ _).1
    · rw [hsev]; exact (severity_if_iff _ _).2

theorem evaluate_metrics_alert_values_witness :
    ((AlertEngine.check_cpu_threshold eng_default db_empty metrics_cpu95 0).1.isSome = true)
    ∧ ∀ a ∈ (AlertEngine.evaluate_metrics eng_default net_none db_empty metrics_cpu95 0).1,
        (a.alert_type = "cpu" ∧ a.threshold_value = some eng_default.cpu_threshold ∧
          a.actual_value = some metrics_cpu95.cpu_usage ∧
          (a.severity = "critical" ↔ 95 ≤ metrics_cpu95.cpu_usage) ∧
          (a.severity = "warning" ↔ metrics_cpu95.cpu_usage < 95))
        ∨ (a.alert_type = "disk" ∧ a.threshold_value = some eng_default.disk_threshold ∧
            ∃ d ∈ metrics_cpu95.disk_usage, a.actual_value = some d.percentage ∧
              (a.severity = "critical" ↔ 90 ≤ d.percentage) ∧
              (a.severity = "warning" ↔ d.percentage < 90)) :=
  ⟨by decide,
    evaluate_metrics_alert_values.1 eng_default net_none db_empty metrics_cpu95 0⟩

/-! ## C2: deduplication of open alerts -/

/-- C2 (amended).  While an unresolved `cpu` alert for the host exists,
`evaluate` creates no further `cpu` alert; and while an unresolved `disk`
alert for a given mountpoint exists, provided the mountpoint contains no
space character, `evaluate` creates no further `disk` alert for that
mountpoint (every returned disk alert comes from a filesystem with a
different mountpoint).  The space-free proviso is forced by the source's
message-parsing dedup key (`message.split(' ')[-1]`); see the
counterexample. -/
theorem evaluate_metrics_dedup (eng : AlertEngine) (net : String → Nat → Option Int)
    (db : DBState) (metrics : SystemMetrics) (now : ℚ) :
    ((∃ a ∈ db.alerts, a.server_id = metrics.server_id ∧ a.alert_type = "cpu"
        ∧ a.is_resolved = false) →
      ∀ r ∈ (AlertEngine.evaluate_metrics eng net db metrics now).1, r.alert_type ≠ "cpu")
    ∧ (∀ (mp sid0 : String) (pct0 : ℚ),
        (∃ a ∈ db.alerts, a.server_id = metrics.server_id ∧ a.alert_type = "disk"
          ∧ a.is_resolved = false ∧ a.message = disk_alert_message sid0 pct0 mp) →
        (∀ c ∈ mp.data, c ≠ ' ') →
        ∀ r ∈ (AlertEngine.evaluate_metrics eng net db metrics now).1,
          r.alert_type = "disk" →
            ∃ d ∈ metrics.disk_usage, d.mountpoint ≠ mp
              ∧ r.message = disk_alert_message metrics.server_id d.percentage d.mountpoint) := by
  constructor
  · intro hex r hr
    have hnone := check_cpu_threshold_dedup eng db metrics now hex
    rw [evaluate_metrics_fst, hnone] at hr
    simp only [List.nil_append] at hr
    unfold AlertEngine.check_disk_thresholds at hr
    obtain ⟨-, -, -, -, -, hty, -⟩ :=
      check_disk_go_mem eng metrics.server_id _ now metrics.disk_usage _ r hr
    rw [hty]
    decide
  · intro mp sid0 pct0 hex hsp r hr hty
    obtain ⟨a0, hmem0, hsid0, hty0, hres0, hmsg0⟩ := hex
    rw [evaluate_metrics_fst] at hr
    rcases List.mem_append.mp hr with hcpu | hdisk
    · cases hc : (AlertEngine.check_cpu_threshold eng db metrics now).1 with
      | none => rw [hc] at hcpu; simp at hcpu
      | some c =>
        rw [hc] at hcpu
        simp only [List.mem_singleton] at hcpu
        subst hcpu
        obtain ⟨-, -, hrc, -⟩ := check_cpu_threshold_some eng db metrics now r hc
        rw [hty] at hrc
        exact absurd hrc (by decide)
    · unfold AlertEngine.check_disk_thresholds at hdisk
      have hmem1 : a0 ∈ (AlertEngine.check_cpu_threshold eng db metrics now).2.alerts :=
        check_cpu_threshold_alerts_mono eng db metrics now a0 hmem0
      have hact : a0 ∈ AlertOperations.get_active_alerts
          (AlertEngine.check_cpu_threshold eng db metrics now).2 (some metrics.server_id) :=
        mem_get_active_alerts.mpr ⟨hmem1, hres0, Or.inr hsid0⟩
      have hkey : ("(" ++ mp ++ ")") ∈
          ((AlertOperations.get_active_alerts
            (AlertEngine.check_cpu_threshold eng db metrics now).2
            (some metrics.server_id)).filter (fun a => a.alert_type == "disk")).map
            (fun a => lastToken a.message) := by
        refine List.mem_map.mpr ⟨a0, List.mem_filter.mpr ⟨hact, by simp [hty0]⟩, ?_⟩
        rw [hmsg0, lastToken_disk_alert_message sid0 pct0 mp hsp]
      obtain ⟨d, hd, -, hkfalse, -, -, -, hmsg, -⟩ :=
        check_disk_go_mem eng metrics.server_id _ now metrics.disk_usage _ r hdisk
      refine ⟨d, hd, ?_, hmsg⟩
      intro heq
      rw [heq] at hkfalse
      have := List.elem_eq_true_of_mem hkey
      rw [show (((AlertOperations.get_active_alerts
          (AlertEngine.check_cpu_threshold eng db metrics now).2
          (some metrics.server_id)).filter (fun a => a.alert_type == "disk")).map
          (fun a => lastToken a.message)).elem ("(" ++ mp ++ ")")
        = (((AlertOperations.get_active_alerts
          (AlertEngine.check_cpu_threshold eng db metrics now).2
          (some metrics.server_id)).filter (fun a => a.alert_type == "disk")).map
          (fun a => lastToken a.message)).contains ("(" ++ mp ++ ")") from rfl] at this
      rw [hkfalse] at this
      exact Bool.false_ne_true this

/-- A second over-threshold sample for an already-alerted spaced mountpoint. -/
def metrics_spacemp : SystemMetrics :=
  { server_id := "srv1"
    timestamp := "2024-01-01T00:00:00Z"
    cpu_usage := 10
    memory := { total := 100, used := 10, percentage := 10 }
    disk_usage := [{ mountpoint := "a b", total := 100, used := 85, percentage := 85 }]
    load_average := { one_min := 0, five_min := 0, fifteen_min := 0 }
    uptime := 5
    failed_services := [] }

/-- State after the first evaluation of the spaced-mountpoint sample. -/
def db_space1 : DBState :=
  (AlertEngine.evaluate_metrics eng_default net_none db_empty metrics_spacemp 0).2

/-- State after evaluating the same sample a second time. -/
def db_space2 : DBState :=
  (AlertEngine.evaluate_metrics eng_default net_none db_space1 metrics_spacemp 1).2

/-- C2 counterexample.  For the mountpoint `"a b"` (which contains a space),
an open disk alert for that mountpoint does **not** prevent a second
over-threshold sample for the same mountpoint from creating a new disk
alert: after two evaluations the database holds two open disk alerts for the
same host with the identical mountpoint-`(a b)` message, violating the
at-most-one-open-alert-per-(host, type, discriminator) invariant.  The
message-derived dedup key of the first alert is `"b)"`, which never matches
the looked-up key `"(a b)"`. -/
theorem evaluate_metrics_dedup_counterexample :
    (db_space1.alerts.filter (fun a => a.server_id == "srv1" && a.alert_type == "disk"
        && !a.is_resolved && a.message == disk_alert_message "srv1" 85 "a b")).length = 1
    ∧ (db_space2.alerts.filter (fun a => a.server_id == "srv1" && a.alert_type == "disk"
        && !a.is_resolved && a.message == disk_alert_message "srv1" 85 "a b")).length = 2
    ∧ lastToken (disk_alert_message "srv1" 85 "a b") = "b)" := by
  refine ⟨?_, ?_, ?_⟩ <;> decide

/-- State holding the open `cpu` alert created by Scenario 1's sample. -/
def db_cpu1 : DBState :=
  (AlertEngine.evaluate_metrics eng_default net_none db_empty metrics_cpu95 0).2

/-- State holding the open `disk` alert for `/` created by Scenario 2's sample. -/
def db_disk1 : DBState :=
  (AlertEngine.evaluate_metrics eng_default net_none db_empty metrics_disk85 0).2

theorem evaluate_metrics_dedup_witness :
    (∃ a ∈ db_cpu1.alerts, a.server_id = metrics_cpu95.server_id ∧ a.alert_type = "cpu"
      ∧ a.is_resolved = false)
    ∧ (∀ r ∈ (AlertEngine.evaluate_metrics eng_default net_none db_cpu1 metrics_cpu95 1).1,
        r.alert_type ≠ "cpu")
    ∧ (∃ a ∈ db_disk1.alerts, a.server_id = metrics_disk85.server_id ∧ a.alert_type = "disk"
        ∧ a.is_resolved = false ∧ a.message = disk_alert_message "srv1" 85 "/")
    ∧ (∀ c ∈ ("/" : String).data, c ≠ ' ')
    ∧ (∀ r ∈ (AlertEngine.evaluate_metrics eng_default net_none db_disk1 metrics_disk85 1).1,
        r.alert_type = "disk" →
          ∃ d ∈ metrics_disk85.disk_usage, d.mountpoint ≠ "/"
            ∧ r.message = disk_alert_message metrics_disk85.server_id d.percentage d.mountpoint) :=
  ⟨by decide,
    (evaluate_metrics_dedup eng_default net_none db_cpu1 metrics_cpu95 1).1 (by decide),
    by decide, by decide,
    (evaluate_metrics_dedup eng_default net_none db_disk1 metrics_disk85 1).2 "/" "srv1" 85
      (by decide) (by decide)⟩

/-! ## C3: the health classification of an online host with a sample -/

theorem cpu_health_fst (th : HealthThresholds) (v : ℚ) :
    (HealthStatusManager.evaluate_cpu_health th v).1
      = spec_component_status th.cpu_warning_threshold th.cpu_critical_threshold v := by
  unfold HealthStatusManager.evaluate_cpu_health spec_component_status
  split_ifs <;> rfl

theorem memory_health_fst (th : HealthThresholds) (v : ℚ) :
    (HealthStatusManager.evaluate_memory_health th v).1
      = spec_component_status th.memory_warning_threshold th.memory_critical_threshold v := by
  unfold HealthStatusManager.evaluate_memory_health spec_component_status
  split_ifs <;> rfl

theorem disk_health_fst (th : HealthThresholds) (disks : List DiskUsage) :
    (HealthStatusManager.evaluate_disk_health th disks).1 = spec_disk_status th disks := by
  unfold HealthStatusManager.evaluate_disk_health spec_disk_status spec_component_status
  show (if disks.isEmpty then (("normal", "none") : String × String)
      else if max_percentage disks ≥ th.disk_critical_threshold then ("critical", "critical")
      else if max_percentage disks ≥ th.disk_warning_threshold then ("warning", "warning")
      else ("normal", "none")).1 = _
  split_ifs <;> rfl

theorem cpu_health_snd (th : HealthThresholds) (v : ℚ) :
    ((HealthStatusManager.evaluate_cpu_health th v).2 = "none")
      ↔ spec_component_status th.cpu_warning_threshold th.cpu_critical_threshold v
          = "normal" := by
  unfold HealthStatusManager.evaluate_cpu_health spec_component_status
  split_ifs <;> simp

theorem memory_health_snd (th : HealthThresholds) (v : ℚ) :
    ((HealthStatusManager.evaluate_memory_health th v).2 = "none")
      ↔ spec_component_status th.memory_warning_threshold th.memory_critical_threshold v
          = "normal" := by
  unfold HealthStatusManager.evaluate_memory_health spec_component_status
  split_ifs <;> simp

theorem disk_health_snd (th : HealthThresholds) (disks : List DiskUsage) :
    ((HealthStatusManager.evaluate_disk_health th disks).2 = "none")
      ↔ spec_disk_status th disks = "normal" := by
  unfold HealthStatusManager.evaluate_disk_health spec_disk_status spec_component_status
  show ((if disks.isEmpty then (("normal", "none") : String × String)
      else if max_percentage disks ≥ th.disk_critical_threshold then ("critical", "critical")
      else if max_percentage disks ≥ th.disk_warning_threshold then ("warning", "warning")
      else ("normal", "none")).2 = "none") ↔ _
  split_ifs <;> simp

theorem cpu_health_snd_cases (th : HealthThresholds) (v : ℚ) :
    (HealthStatusManager.evaluate_cpu_health th v).2 = "critical"
    ∨ (HealthStatusManager.evaluate_cpu_health th v).2 = "warning"
    ∨ (HealthStatusManager.evaluate_cpu_health th v).2 = "none" := by
  unfold HealthStatusManager.evaluate_cpu_health
  split_ifs <;> simp

theorem memory_health_snd_cases (th : HealthThresholds) (v : ℚ) :
    (HealthStatusManager.evaluate_memory_health th v).2 = "critical"
    ∨ (HealthStatusManager.evaluate_memory_health th v).2 = "warning"
    ∨ (HealthStatusManager.evaluate_memory_health th v).2 = "none" := by
  unfold HealthStatusManager.evaluate_memory_health
  split_ifs <;> simp

theorem disk_health_snd_cases (th : HealthThresholds) (disks : List DiskUsage) :
    (HealthStatusManager.evaluate_disk_health th disks).2 = "critical"
    ∨ (HealthStatusManager.evaluate_disk_health th disks).2 = "warning"
    ∨ (HealthStatusManager.evaluate_disk_health th disks).2 = "none" := by
  unfold HealthStatusManager.evaluate_disk_health
  show (if disks.isEmpty then (("normal", "none") : String × String)
      else if max_percentage disks ≥ th.disk_critical_threshold then ("critical", "critical")
      else if max_percentage disks ≥ th.disk_warning_threshold then ("warning", "warning")
      else ("normal", "none")).2 = "critical" ∨ _ ∨ _
  by_cases he : disks.isEmpty
  · rw [if_pos he]; simp
  · rw [if_neg he]
    by_cases h1 : max_percentage disks ≥ th.disk_critical_threshold
    · rw [if_pos h1]; simp
    · rw [if_neg h1]
      by_cases h2 : max_percentage disks ≥ th.disk_warning_threshold
      · rw [if_pos h2]; simp
      · rw [if_neg h2]; simp

/-- On the three severity values the evaluators can produce,
`_determine_overall_status` is the spec's overall rule and never `down`. -/
theorem determine_overall_char (c m d : String) (f : Bool)
    (hc : c = "critical" ∨ c = "warning" ∨ c = "none")
    (hm : m = "critical" ∨ m = "warning" ∨ m = "none")
    (hd : d = "critical" ∨ d = "warning" ∨ d = "none") :
    HealthStatusManager.determine_overall_status c m d f
      = (if c ≠ "none" ∨ m ≠ "none" ∨ d ≠ "none" ∨ f = true then "warning" else "healthy")
    ∧ HealthStatusManager.determine_overall_status c m d f ≠ "down" := by
  rcases hc with rfl | rfl | rfl <;> rcases hm with rfl | rfl | rfl <;>
    rcases hd with rfl | rfl | rfl <;> cases f <;> exact ⟨by decide, by decide⟩

/-- C3.  The classification of an online host with a sample is the pure
function `classify_online` of the sample fields and the thresholds (so equal
inputs give equal outputs by construction), and it coincides with the
spec-side classifier: each component is `critical` when its value reaches the
critical threshold, else `warning` when it reaches the warning threshold,
else `normal`, disk taking the maximum percentage over the reported
filesystems with an empty list normal; the overall status is `warning`
exactly when some component is non-normal or a failed service is reported,
and `healthy` otherwise — never `down`. -/
theorem classify_online_matches_spec (th : HealthThresholds)
    (cpu_usage memory_percentage : ℚ) (disks : List DiskUsage)
    (has_failed_services : Bool) :
    classify_online th cpu_usage memory_percentage disks has_failed_services
      = spec_overall_status th cpu_usage memory_percentage disks has_failed_services
    ∧ classify_online th cpu_usage memory_percentage disks has_failed_services ≠ "down"
    ∧ (HealthStatusManager.evaluate_cpu_health th cpu_usage).1
        = spec_component_status th.cpu_warning_threshold th.cpu_critical_threshold cpu_usage
    ∧ (HealthStatusManager.evaluate_memory_health th memory_percentage).1
        = spec_component_status th.memory_warning_threshold th.memory_critical_threshold
            memory_percentage
    ∧ (HealthStatusManager.evaluate_disk_health th disks).1 = spec_disk_status th disks := by
  obtain ⟨hD, hDn⟩ := determine_overall_char
    (HealthStatusManager.evaluate_cpu_health th cpu_usage).2
    (HealthStatusManager.evaluate_memory_health th memory_percentage).2
    (HealthStatusManager.evaluate_disk_health th disks).2
    has_failed_services
    (cpu_health_snd_cases th cpu_usage)
    (memory_health_snd_cases th memory_percentage)
    (disk_health_snd_cases th disks)
  refine ⟨?_, ?_, cpu_health_fst th cpu_usage, memory_health_fst th memory_percentage,
    disk_health_fst th disks⟩
  · unfold classify_online
    rw [hD]
    unfold spec_overall_status
    exact if_congr
      (or_congr (not_congr (cpu_health_snd th cpu_usage))
        (or_congr (not_congr (memory_health_snd th memory_percentage))
          (or_congr (not_congr (disk_health_snd th disks)) Iff.rfl)))
      rfl rfl
  · unfold classify_online
    exact hDn

/-! ## C1: delivery recording when every attempt gets an HTTP error -/

theorem send_webhook_go_all_http_errors (retry_attempts : Nat) (net : Nat → Option Int)
    (alert_id : Nat) (now : ℚ) (atts : List Nat) (db : DBState)
    (h : ∀ i ∈ atts, ∃ c, net i = some c ∧ (400 : Int) ≤ c) :
    (AlertEngine.send_webhook_go retry_attempts net alert_id now atts db).1 = false
    ∧ (AlertEngine.send_webhook_go retry_attempts net alert_id now atts db).2.webhook_log
        = db.webhook_log ++ atts.map (fun i => (alert_id, net i)) := by
  induction atts generalizing db with
  | nil => simp [AlertEngine.send_webhook_go]
  | cons i rest ih =>
    obtain ⟨c, hc, hge⟩ := h i (List.mem_cons_self _ _)
    have hnl : ¬ c < 400 := not_lt.mpr hge
    unfold AlertEngine.send_webhook_go
    rw [hc]
    simp only [hnl, if_false]
    obtain ⟨ih1, ih2⟩ := ih (AlertOperations.update_webhook_status db alert_id (some c) now)
      (fun j hj => h j (List.mem_cons_of_mem _ hj))
    refine ⟨ih1, ?_⟩
    rw [ih2]
    simp [AlertOperations.update_webhook_status, hc]

/-- C1 (amended).  When a sink answers every one of the configured retry
attempts with an HTTP status ≥ 400, `_send_webhook` reports failure for that
sink, but delivery status is recorded through the Persistence Port **once per
attempt** (so `retry_attempts` times in total for that sink-call), each time
with the actual response status code — never with the sentinel 0, which is
reserved for a transport exception on the final attempt. -/
theorem send_webhook_all_http_errors (eng : AlertEngine) (net : Nat → Option Int)
    (db : DBState) (alert_id : Nat) (now : ℚ)
    (h : ∀ i < eng.webhook_retry_attempts, ∃ c, net i = some c ∧ (400 : Int) ≤ c) :
    (AlertEngine.send_webhook eng net db alert_id now).1 = false
    ∧ (AlertEngine.send_webhook eng net db alert_id now).2.webhook_log
        = db.webhook_log
          ++ (List.range eng.webhook_retry_attempts).map (fun i => (alert_id, net i)) :=
  send_webhook_go_all_http_errors eng.webhook_retry_attempts net alert_id now
    (List.range eng.webhook_retry_attempts) db
    (fun i hi => h i (List.mem_range.mp hi))

/-- A sink that answers HTTP 500 on every attempt. -/
def net500 : Nat → Option Int := fun _ => some 500

/-- An open critical CPU alert with id 1. -/
def alert_one : Alert :=
  { id := 1
    server_id := "srv1"
    alert_type := "cpu"
    severity := "critical"
    message := "m"
    threshold_value := some 90
    actual_value := some 95
    triggered_at := 0
    resolved_at := none
    is_resolved := false
    webhook_sent := false
    webhook_sent_at := none
    webhook_response_code := none }

/-- A one-alert database for exercising webhook delivery bookkeeping. -/
def db_one_alert : DBState :=
  { servers := []
    metrics := []
    alerts := [alert_one]
    health := []
    next_alert_id := 2
    webhook_log := [] }

/-- C1 counterexample to the claim as stated.  With the default three retry
attempts and a sink returning HTTP 500 every time, delivery status is
recorded **three** times for the sink-call — not exactly once — and every
recorded code is 500, never the sentinel 0 (the notifier still reports
failure).  So "`record_delivery` called once with `response_code = 0`" is
false for an HTTP-error sink. -/
theorem send_webhook_all_http_errors_counterexample :
    (AlertEngine.send_webhook eng_default net500 db_one_alert 1 0).1 = false
    ∧ (AlertEngine.send_webhook eng_default net500 db_one_alert 1 0).2.webhook_log
        = [(1, some 500), (1, some 500), (1, some 500)]
    ∧ ((AlertEngine.send_webhook eng_default net500 db_one_alert 1 0).2.webhook_log.filter
        (fun e => e.2 == some 0)).length = 0 := by
  refine ⟨?_, ?_, ?_⟩ <;> decide

theorem send_webhook_all_http_errors_witness :
    (∀ i < eng_default.webhook_retry_attempts, ∃ c, net500 i = some c ∧ (400 : Int) ≤ c)
    ∧ (AlertEngine.send_webhook eng_default net500 db_one_alert 1 0).1 = false
    ∧ (AlertEngine.send_webhook eng_default net500 db_one_alert 1 0).2.webhook_log
        = db_one_alert.webhook_log
          ++ (List.range eng_default.webhook_retry_attempts).map (fun i => (1, net500 i)) :=
  ⟨by decide,
    (send_webhook_all_http_errors eng_default net500 db_one_alert 1 0 (by decide)).1,
    (send_webhook_all_http_errors eng_default net500 db_one_alert 1 0 (by decide)).2⟩

/-! ## C10: every delivery recording marks the alert webhook-sent -/

/-- C10.  Every call to `update_webhook_status` sets `webhook_sent = true`
and a non-null `webhook_sent_at` on the targeted alert, whatever response
code is recorded — including failure codes ≥ 400 and the network-failure
sentinel 0.  In particular, after a sink answers 500 on all attempts (a
failed delivery), the alert still carries `webhook_sent = true` with
response code 500: `webhook_sent = true` does not imply the delivery
succeeded. -/
theorem update_webhook_status_always_marks_sent :
    (∀ (db : DBState) (alert_id : Nat) (response_code : Option Int) (now : ℚ),
      ∀ a ∈ (AlertOperations.update_webhook_status db alert_id response_code now).alerts,
        a.id = alert_id → a.webhook_sent = true ∧ a.webhook_sent_at = some now)
    ∧ ((AlertEngine.send_webhook eng_default net500 db_one_alert 1 0).1 = false
        ∧ ∀ a ∈ (AlertEngine.send_webhook eng_default net500 db_one_alert 1 0).2.alerts,
            a.webhook_sent = true ∧ a.webhook_response_code = some 500) := by
  constructor
  · intro db alert_id response_code now a ha hid
    unfold AlertOperations.update_webhook_status at ha
    simp only [List.mem_map] at ha
    obtain ⟨b, -, rfl⟩ := ha
    unfold webhook_update at hid ⊢
    by_cases hb : (b.id == alert_id) = true
    · simp [hb]
    · rw [if_neg hb] at hid
      exact absurd (by simp [hid]) hb
  · exact ⟨by decide, by decide⟩

theorem update_webhook_status_always_marks_sent_witness :
    (∀ a ∈ (AlertOperations.update_webhook_status db_one_alert 1 (some 0) 3).alerts,
      a.id = 1 → a.webhook_sent = true ∧ a.webhook_sent_at = some 3) :=
  update_webhook_status_always_marks_sent.1 db_one_alert 1 (some 0) 3

/-! ## C9: the health upsert applies defaults for unsupplied fields -/

/-- A stored health row with critical components and known last values. -/
def hs_crit : HealthStatus :=
  { server_id := "srv1"
    status := "warning"
    last_check := 1
    status_since := 1
    cpu_status := "critical"
    memory_status := "warning"
    disk_status := "critical"
    connectivity_status := "online"
    last_cpu_usage := some 99
    last_memory_percentage := some 88
    last_disk_usage_max := some 91 }

/-- A database whose health row for `srv1` carries component state. -/
def db_health_crit : DBState :=
  { servers := [{ server_id := "srv1", last_seen := 0, is_active := true }]
    metrics := []
    alerts := []
    health := [hs_crit]
    next_alert_id := 1
    webhook_log := [] }

/-- C9.  `update_health_status` invoked with only an overall status and a
connectivity status — the call shape of both offline paths
(`AlertEngine.check_offline_servers` and the offline branch of
`HealthStatusManager.evaluate_server_health`) — stores the Python defaults
for every other column: the per-component CPU/memory/disk statuses are
overwritten to `'normal'` and the last known numeric values to `NULL`,
whatever the previous row held.  Marking a host down/offline therefore
erases its stored component states and last known values. -/
theorem update_health_status_defaults_erase :
    (∀ (db : DBState) (sid status conn : String) (now : ℚ),
      ∃ hs, HealthStatusOperations.get_health_status
          (HealthStatusOperations.update_health_status db sid status
            "normal" "normal" "normal" conn none none none now) sid = some hs
        ∧ hs.status = status ∧ hs.connectivity_status = conn
        ∧ hs.cpu_status = "normal" ∧ hs.memory_status = "normal" ∧ hs.disk_status = "normal"
        ∧ hs.last_cpu_usage = none ∧ hs.last_memory_percentage = none
        ∧ hs.last_disk_usage_max = none)
    ∧ HealthStatusOperations.get_health_status
        (HealthStatusOperations.update_health_status db_health_crit "srv1" "down"
          "normal" "normal" "normal" "offline" none none none 5) "srv1"
      = some (HealthStatusOperations.fresh_row "srv1" "down" "normal" "normal" "normal"
          "offline" none none none 5) := by
  constructor
  · intro db sid status conn now
    obtain ⟨hs, hfind, hsid, hst, hc, hm, hd, hcn, hlc, hlm, hld⟩ :=
      get_health_status_update_self db sid status "normal" "normal" "normal" conn
        none none none now
    exact ⟨hs, hfind, hst, hcn, hc, hm, hd, hlc, hlm, hld⟩
  · decide

theorem update_health_status_defaults_erase_witness :
    ∃ hs, HealthStatusOperations.get_health_status
        (HealthStatusOperations.update_health_status db_health_crit "srv1" "down"
          "normal" "normal" "normal" "offline" none none none 5) "srv1" = some hs
      ∧ hs.status = "down" ∧ hs.connectivity_status = "offline"
      ∧ hs.cpu_status = "normal" ∧ hs.memory_status = "normal" ∧ hs.disk_status = "normal"
      ∧ hs.last_cpu_usage = none ∧ hs.last_memory_percentage = none
      ∧ hs.last_disk_usage_max = none :=
  update_health_status_defaults_erase.1 db_health_crit "srv1" "down" "offline" 5

/-! ## C7: classification totality on absent input -/

/-- `get_latest_metrics` of a server with no stored metric rows is empty. -/
theorem get_latest_metrics_empty (db : DBState) (sid : String) (limit : Nat)
    (h : db.metrics.filter (fun m => m.server_id == sid) = []) :
    MetricOperations.get_latest_metrics db sid limit = [] := by
  unfold MetricOperations.get_latest_metrics
  rw [h]
  exact List.take_nil

/-- C7.  Classification never fails on absent input: a missing last-seen
timestamp evaluates to offline; a host record that is not found yields the
classification `down` with no state change; a found host whose last-seen lies
beyond the offline timeout yields `down` with an offline/normal/NULL health
row stored and without any component evaluation (the result is the same for
every metrics table, i.e. the sample is never consulted); and an online host
with no stored sample yields `warning` with connectivity `online`.  In every
case a classification is returned — the model is a total function. -/
theorem evaluate_server_health_total :
    (∀ (th : HealthThresholds) (now : ℚ),
      HealthStatusManager.evaluate_connectivity th none now = "offline")
    ∧ (∀ (th : HealthThresholds) (db : DBState) (sid : String) (now : ℚ),
        ServerOperations.get_server db sid = none →
        HealthStatusManager.evaluate_server_health th db sid now = ("down", db))
    ∧ (∀ (th : HealthThresholds) (db : DBState) (sid : String) (now : ℚ) (s : Server),
        ServerOperations.get_server db sid = some s →
        (th.offline_timeout_minutes : ℚ) * 60 < now - s.last_seen →
        (HealthStatusManager.evaluate_server_health th db sid now).1 = "down"
        ∧ (∃ hs, HealthStatusOperations.get_health_status
            (HealthStatusManager.evaluate_server_health th db sid now).2 sid = some hs
            ∧ hs.status = "down" ∧ hs.connectivity_status = "offline"
            ∧ hs.cpu_status = "normal" ∧ hs.memory_status = "normal"
            ∧ hs.disk_status = "normal")
        ∧ (∀ M : List MetricRow,
            (HealthStatusManager.evaluate_server_health th { db with metrics := M }
              sid now).1 = "down"))
    ∧ (∀ (th : HealthThresholds) (db : DBState) (sid : String) (now : ℚ) (s : Server),
        ServerOperations.get_server db sid = some s →
        now - s.last_seen ≤ (th.offline_timeout_minutes : ℚ) * 60 →
        db.metrics.filter (fun m => m.server_id == sid) = [] →
        (HealthStatusManager.evaluate_server_health th db sid now).1 = "warning"
        ∧ ∃ hs, HealthStatusOperations.get_health_status
            (HealthStatusManager.evaluate_server_health th db sid now).2 sid = some hs
            ∧ hs.status = "warning" ∧ hs.connectivity_status = "online") := by
  refine ⟨fun th now => rfl, ?_, ?_, ?_⟩
  · intro th db sid now h
    unfold HealthStatusManager.evaluate_server_health
    rw [h]
  · intro th db sid now s hfind hlate
    have hconn : HealthStatusManager.evaluate_connectivity th (some s.last_seen) now
        = "offline" := by
      show (if now - s.last_seen ≤ (th.offline_timeout_minutes : ℚ) * 60
        then "online" else "offline") = "offline"
      rw [if_neg (not_le.mpr hlate)]
    refine ⟨?_, ?_, ?_⟩
    · unfold HealthStatusManager.evaluate_server_health
      rw [hfind]
      simp [hconn]
    · unfold HealthStatusManager.evaluate_server_health
      rw [hfind]
      simp only [hconn, beq_self_eq_true, if_true]
      obtain ⟨hs, hfind2, hsid, hst, hc, hm, hd, hcn, -⟩ :=
        get_health_status_update_self db sid "down" "normal" "normal" "normal" "offline"
          none none none now
      exact ⟨hs, hfind2, hst, hcn, hc, hm, hd⟩
    · intro M
      have hfind2 : ServerOperations.get_server { db with metrics := M } sid = some s := hfind
      unfold HealthStatusManager.evaluate_server_health
      rw [hfind2]
      simp [hconn]
  · intro th db sid now s hfind hon hempty
    have hconn : HealthStatusManager.evaluate_connectivity th (some s.last_seen) now
        = "online" := by
      show (if now - s.last_seen ≤ (th.offline_timeout_minutes : ℚ) * 60
        then "online" else "offline") = "online"
      rw [if_pos hon]
    have hlm : MetricOperations.get_latest_metrics db sid 1 = [] :=
      get_latest_metrics_empty db sid 1 hempty
    constructor
    · unfold HealthStatusManager.evaluate_server_health
      rw [hfind]
      simp [hconn, hlm]
    · unfold HealthStatusManager.evaluate_server_health
      rw [hfind]
      simp only [hconn, hlm]
      obtain ⟨hs, hfind2, hsid, hst, -, -, -, hcn, -⟩ :=
        get_health_status_update_self db sid "warning" "normal" "normal" "normal" "online"
          none none none now
      exact ⟨hs, by simpa using hfind2, hst, hcn⟩

/-- A database with one active host whose last-seen timestamp is 0. -/
def db_one_server : DBState :=
  { servers := [{ server_id := "srv1", last_seen := 0, is_active := true }]
    metrics := []
    alerts := []
    health := []
    next_alert_id := 1
    webhook_log := [] }

theorem evaluate_server_health_total_witness :
    (ServerOperations.get_server db_empty "ghost" = none
      ∧ HealthStatusManager.evaluate_server_health defaultHealthThresholds db_empty
          "ghost" 0 = ("down", db_empty))
    ∧ ((HealthStatusManager.evaluate_server_health defaultHealthThresholds db_one_server
          "srv1" 600).1 = "down"
        ∧ ∃ hs, HealthStatusOperations.get_health_status
            (HealthStatusManager.evaluate_server_health defaultHealthThresholds
              db_one_server "srv1" 600).2 "srv1" = some hs
            ∧ hs.status = "down" ∧ hs.connectivity_status = "offline"
            ∧ hs.cpu_status = "normal" ∧ hs.memory_status = "normal"
            ∧ hs.disk_status = "normal")
    ∧ ((HealthStatusManager.evaluate_server_health defaultHealthThresholds db_one_server
          "srv1" 100).1 = "warning"
        ∧ ∃ hs, HealthStatusOperations.get_health_status
            (HealthStatusManager.evaluate_server_health defaultHealthThresholds
              db_one_server "srv1" 100).2 "srv1" = some hs
            ∧ hs.status = "warning" ∧ hs.connectivity_status = "online") :=
  ⟨⟨by decide, evaluate_server_health_total.2.1 defaultHealthThresholds db_empty "ghost" 0
      (by decide)⟩,
    ⟨(evaluate_server_health_total.2.2.1 defaultHealthThresholds db_one_server "srv1" 600
        { server_id := "srv1", last_seen := 0, is_active := true } (by decide)
        (by norm_num [defaultHealthThresholds])).1,
      ((evaluate_server_health_total.2.2.1 defaultHealthThresholds db_one_server "srv1" 600
        { server_id := "srv1", last_seen := 0, is_active := true } (by decide)
        (by norm_num [defaultHealthThresholds])).2).1⟩,
    ⟨(evaluate_server_health_total.2.2.2 defaultHealthThresholds db_one_server "srv1" 100
        { server_id := "srv1", last_seen := 0, is_active := true } (by decide)
        (by norm_num [defaultHealthThresholds]) (by decide)).1,
      (evaluate_server_health_total.2.2.2 defaultHealthThresholds db_one_server "srv1" 100
        { server_id := "srv1", last_seen := 0, is_active := true } (by decide)
        (by norm_num [defaultHealthThresholds]) (by decide)).2⟩⟩

/-! ## C8: resolving alerts -/

/-- The cumulative effect on one row of resolving every id in `ids`. -/
def resolve_if_in (now : ℚ) (ids : List Nat) (a : Alert) : Alert :=
  if ids.contains a.id then mark_resolved now a else a

theorem mark_resolved_id (now : ℚ) (a : Alert) : (mark_resolved now a).id = a.id := rfl

theorem resolve_one_id (alert_id : Nat) (now : ℚ) (a : Alert) :
    (resolve_one alert_id now a).id = a.id := by
  unfold resolve_one
  by_cases h : (a.id == alert_id) = true <;> simp [h, mark_resolved]

theorem resolve_if_in_nil (now : ℚ) (a : Alert) : resolve_if_in now [] a = a := by
  simp [resolve_if_in]

theorem resolve_comp (now : ℚ) (j : Nat) (ids : List Nat) (a : Alert) :
    resolve_if_in now ids (resolve_one j now a) = resolve_if_in now (j :: ids) a := by
  unfold resolve_if_in resolve_one
  by_cases hj : (a.id == j) = true
  · have hj' : a.id = j := beq_iff_eq.mp hj
    have hcons : ((j :: ids).contains a.id) = true := by simp [hj']
    rw [if_pos hj, hcons, if_pos rfl, mark_resolved_id]
    by_cases hin : (ids.contains a.id) = true
    · rw [if_pos hin]
      rfl
    · rw [if_neg hin]
  · have hj' : ¬ a.id = j := by simpa using hj
    have hcons : ((j :: ids).contains a.id) = (ids.contains a.id) := by simp [hj']
    rw [if_neg hj, hcons]

/-- The loop of `resolve_alerts_for_server`, fully characterised: it returns
the running count plus the number of iterated alerts passing the type
filter, and its final state resolves exactly the ids of those alerts. -/
theorem resolve_go_spec (alert_types : Option (List String)) (now : ℚ)
    (todo : List Alert) (count : Nat) (db : DBState)
    (hpresent : ∀ t ∈ todo, ∃ a ∈ db.alerts, a.id = t.id) :
    (AlertEngine.resolve_go alert_types now todo count db).1
      = count + (todo.filter (matches_filter alert_types)).length
    ∧ (AlertEngine.resolve_go alert_types now todo count db).2
      = { db with alerts := db.alerts.map (resolve_if_in now ((todo.filter (matches_filter alert_types)).map Alert.id)) } := by
  induction todo generalizing count db with
  | nil =>
    constructor
    · simp [AlertEngine.resolve_go]
    · have h2 : (AlertEngine.resolve_go alert_types now [] count db).2 = db := rfl
      rw [h2]
      show db = { db with alerts := db.alerts.map (resolve_if_in now ([] : List Nat)) }
      rw [List.map_congr_left (fun a _ => resolve_if_in_nil now a), List.map_id']
  | cons t rest ih =>
    by_cases hm : (matches_filter alert_types t) = true
    · obtain ⟨a, hamem, haid⟩ := hpresent t (List.mem_cons_self _ _)
      have hok : (AlertOperations.resolve_alert db t.id now).1 = true := by
        show decide (0 < db.alerts.countP (fun a => a.id == t.id)) = true
        rw [decide_eq_true_eq]
        exact List.countP_pos_iff.mpr ⟨a, hamem, by simp [haid]⟩
      have hpresent' : ∀ u ∈ rest,
          ∃ b ∈ (AlertOperations.resolve_alert db t.id now).2.alerts, b.id = u.id := by
        intro u hu
        obtain ⟨b, hb, hbid⟩ := hpresent u (List.mem_cons_of_mem _ hu)
        exact ⟨resolve_one t.id now b, List.mem_map_of_mem _ hb,
          (resolve_one_id t.id now b).trans hbid⟩
      obtain ⟨ih1, ih2⟩ := ih (count + 1) (AlertOperations.resolve_alert db t.id now).2 hpresent'
      unfold AlertEngine.resolve_go
      rw [if_pos hm]
      constructor
      · simp only [hok, if_true]
        rw [ih1, List.filter_cons_of_pos hm, List.length_cons]
        omega
      · simp only [hok, if_true]
        rw [ih2]
        show ({ db with alerts := (db.alerts.map (resolve_one t.id now)).map (resolve_if_in now ((rest.filter (matches_filter alert_types)).map Alert.id)) } : DBState) = _
        have hcongr : List.map (resolve_if_in now
              ((rest.filter (matches_filter alert_types)).map Alert.id)
              ∘ resolve_one t.id now) db.alerts
            = List.map (resolve_if_in now
              (t.id :: (rest.filter (matches_filter alert_types)).map Alert.id)) db.alerts :=
          List.map_congr_left (fun a _ => resolve_comp now t.id
            ((rest.filter (matches_filter alert_types)).map Alert.id) a)
        rw [List.map_map, hcongr, List.filter_cons_of_pos hm, List.map_cons]
    · have hm' : (matches_filter alert_types t) = false := by simpa using hm
      obtain ⟨ih1, ih2⟩ := ih count db (fun u hu => hpresent u (List.mem_cons_of_mem _ hu))
      unfold AlertEngine.resolve_go
      rw [hm', if_neg Bool.false_ne_true, List.filter_cons_of_neg (by simp [hm'])]
      exact ⟨ih1, ih2⟩

/-- Any member of a `get_active_alerts` result is an unresolved stored alert. -/
theorem mem_get_active_alerts_weak {db : DBState} {so : Option String} {a : Alert}
    (h : a ∈ AlertOperations.get_active_alerts db so) :
    a ∈ db.alerts ∧ a.is_resolved = false := by
  match so with
  | none =>
    unfold AlertOperations.get_active_alerts at h
    rw [List.Perm.mem_iff (List.perm_insertionSort _ _)] at h
    have := List.mem_filter.mp h
    exact ⟨this.1, by simpa using this.2⟩
  | some sid =>
    have := mem_get_active_alerts.mp h
    exact ⟨this.1, this.2.1⟩

theorem resolve_if_in_id (now : ℚ) (ids : List Nat) (a : Alert) :
    (resolve_if_in now ids a).id = a.id := by
  unfold resolve_if_in
  by_cases h : (ids.contains a.id) = true
  · rw [if_pos h]
    rfl
  · rw [if_neg h]

/-- The count returned by `resolve_alerts_for_server`: the number of open
alerts of the server passing the type filter. -/
theorem resolve_alerts_count_spec (db : DBState) (sid : String)
    (types : Option (List String)) (now : ℚ) (hsid : sid ≠ "") :
    (AlertEngine.resolve_alerts_for_server db sid types now).1
      = (((db.alerts.filter (fun a => !a.is_resolved)).filter
          (fun a => a.server_id == sid)).filter (matches_filter types)).length := by
  have hpresent : ∀ t ∈ AlertOperations.get_active_alerts db (some sid),
      ∃ a ∈ db.alerts, a.id = t.id :=
    fun t ht => ⟨t, (mem_get_active_alerts_weak ht).1, rfl⟩
  have h := (resolve_go_spec types now (AlertOperations.get_active_alerts db (some sid))
    0 db hpresent).1
  unfold AlertEngine.resolve_alerts_for_server
  rw [h, Nat.zero_add]
  have hsort : AlertOperations.get_active_alerts db (some sid)
      = List.insertionSort (fun a b : Alert => a.triggered_at ≥ b.triggered_at)
        ((db.alerts.filter (fun a => !a.is_resolved)).filter (fun a => a.server_id == sid)) := by
    unfold AlertOperations.get_active_alerts
    simp [hsid]
  rw [hsort, ← List.countP_eq_length_filter, (List.perm_insertionSort _ _).countP_eq,
    List.countP_eq_length_filter]

/-- The final state of `resolve_alerts_for_server`: for a database whose
alert ids are unique, an alert ends up resolved exactly when it already was,
or it was an open alert of the server passing the type filter. -/
theorem resolve_alerts_exact_spec (db : DBState) (sid : String)
    (types : Option (List String)) (now : ℚ) (hsid : sid ≠ "")
    (hnd : (db.alerts.map Alert.id).Nodup) :
    ∀ a0 ∈ db.alerts,
      ∀ a1 ∈ (AlertEngine.resolve_alerts_for_server db sid types now).2.alerts,
        a1.id = a0.id →
          (a1.is_resolved = true
            ↔ (a0.is_resolved = true
                ∨ (a0.server_id = sid ∧ a0.is_resolved = false
                    ∧ matches_filter types a0 = true))) := by
  intro a0 ha0 a1 ha1 hid
  have hpresent : ∀ t ∈ AlertOperations.get_active_alerts db (some sid),
      ∃ a ∈ db.alerts, a.id = t.id :=
    fun t ht => ⟨t, (mem_get_active_alerts_weak ht).1, rfl⟩
  have heq : (AlertEngine.resolve_alerts_for_server db sid types now).2
      = { db with alerts := db.alerts.map (resolve_if_in now
          (((AlertOperations.get_active_alerts db (some sid)).filter
            (matches_filter types)).map Alert.id)) } :=
    (resolve_go_spec types now (AlertOperations.get_active_alerts db (some sid))
      0 db hpresent).2
  rw [heq] at ha1
  obtain ⟨b, hb, rfl⟩ := List.mem_map.mp ha1
  have hbid : b.id = a0.id := (resolve_if_in_id now _ b).symm.trans hid
  have hba : b = a0 := List.inj_on_of_nodup_map hnd hb ha0 hbid
  subst hba
  unfold resolve_if_in
  by_cases hc : ((((AlertOperations.get_active_alerts db (some sid)).filter
      (matches_filter types)).map Alert.id).contains b.id) = true
  · rw [if_pos hc]
    have hmem : b.id ∈ ((AlertOperations.get_active_alerts db (some sid)).filter
        (matches_filter types)).map Alert.id := by simpa using hc
    obtain ⟨t, ht, htid⟩ := List.mem_map.mp hmem
    have ht1 := List.mem_filter.mp ht
    have ht2 := mem_get_active_alerts.mp ht1.1
    have hteq : t = b := List.inj_on_of_nodup_map hnd ht2.1 hb htid
    subst hteq
    have hserv : t.server_id = sid := (ht2.2.2).resolve_left hsid
    exact iff_of_true rfl (Or.inr ⟨hserv, ht2.2.1, ht1.2⟩)
  · rw [if_neg hc]
    constructor
    · exact Or.inl
    · rintro (h | ⟨hserv, hopen, hmatch⟩)
      · exact h
      · exfalso
        apply hc
        have hbin : b ∈ AlertOperations.get_active_alerts db (some sid) :=
          mem_get_active_alerts.mpr ⟨hb, hopen, Or.inr hserv⟩
        have hin : b.id ∈ ((AlertOperations.get_active_alerts db (some sid)).filter
            (matches_filter types)).map Alert.id :=
          List.mem_map_of_mem _ (List.mem_filter.mpr ⟨hbin, hmatch⟩)
        simpa using hin

/-- C8.  Resolving an alert sets `resolved = true` and a non-null
`resolved_at`; a resolved alert is excluded from every subsequent
`get_open_alerts` result; `resolve_alert` reports success whenever the id
exists; and `resolve_alerts_for_server` resolves exactly the open alerts of
the host matching the optional type filter (all of them when the filter is
absent, `matches_filter` being identically true then) and returns their
number. -/
theorem resolve_roundtrip :
    (∀ (db : DBState) (alert_id : Nat) (now : ℚ),
      (∃ a ∈ db.alerts, a.id = alert_id) →
        (AlertOperations.resolve_alert db alert_id now).1 = true)
    ∧ (∀ (db : DBState) (alert_id : Nat) (now : ℚ),
        ∀ a ∈ (AlertOperations.resolve_alert db alert_id now).2.alerts,
          a.id = alert_id → a.is_resolved = true ∧ a.resolved_at = some now)
    ∧ (∀ (db : DBState) (alert_id : Nat) (now : ℚ) (so : Option String),
        ∀ a ∈ AlertOperations.get_active_alerts
            (AlertOperations.resolve_alert db alert_id now).2 so, a.id ≠ alert_id)
    ∧ (∀ (db : DBState) (sid : String) (types : Option (List String)) (now : ℚ),
        sid ≠ "" →
        (AlertEngine.resolve_alerts_for_server db sid types now).1
          = (((db.alerts.filter (fun a => !a.is_resolved)).filter
              (fun a => a.server_id == sid)).filter (matches_filter types)).length)
    ∧ (∀ (db : DBState) (sid : String) (types : Option (List String)) (now : ℚ),
        sid ≠ "" → (db.alerts.map Alert.id).Nodup →
        ∀ a0 ∈ db.alerts,
          ∀ a1 ∈ (AlertEngine.resolve_alerts_for_server db sid types now).2.alerts,
            a1.id = a0.id →
              (a1.is_resolved = true
                ↔ (a0.is_resolved = true
                    ∨ (a0.server_id = sid ∧ a0.is_resolved = false
                        ∧ matches_filter types a0 = true)))) := by
  refine ⟨?_, ?_, ?_,
    fun db sid types now h => resolve_alerts_count_spec db sid types now h,
    fun db sid types now h hnd => resolve_alerts_exact_spec db sid types now h hnd⟩
  · rintro db alert_id now ⟨a, ha, haid⟩
    show decide (0 < db.alerts.countP (fun a => a.id == alert_id)) = true
    rw [decide_eq_true_eq]
    exact List.countP_pos_iff.mpr ⟨a, ha, by simp [haid]⟩
  · intro db alert_id now a ha hid
    obtain ⟨b, hb, rfl⟩ := List.mem_map.mp ha
    have hbid : b.id = alert_id := (resolve_one_id alert_id now b).symm.trans hid
    unfold resolve_one
    rw [if_pos (show (b.id == alert_id) = true by simp [hbid])]
    exact ⟨rfl, rfl⟩
  · intro db alert_id now so a ha heq
    obtain ⟨hmem, hopen⟩ := mem_get_active_alerts_weak ha
    obtain ⟨b, hb, rfl⟩ := List.mem_map.mp hmem
    have hbid : b.id = alert_id := (resolve_one_id alert_id now b).symm.trans heq
    unfold resolve_one at hopen
    rw [if_pos (show (b.id == alert_id) = true by simp [hbid])] at hopen
    simp [mark_resolved] at hopen

theorem resolve_roundtrip_witness :
    ((∃ a ∈ db_one_alert.alerts, a.id = 1)
      ∧ (AlertOperations.resolve_alert db_one_alert 1 7).1 = true)
    ∧ (∀ a ∈ (AlertOperations.resolve_alert db_one_alert 1 7).2.alerts,
        a.id = 1 → a.is_resolved = true ∧ a.resolved_at = some 7)
    ∧ (∀ a ∈ AlertOperations.get_active_alerts
        (AlertOperations.resolve_alert db_one_alert 1 7).2 (some "srv1"), a.id ≠ 1)
    ∧ (AlertEngine.resolve_alerts_for_server db_one_alert "srv1" none 7).1
        = (((db_one_alert.alerts.filter (fun a => !a.is_resolved)).filter
            (fun a => a.server_id == "srv1")).filter (matches_filter none)).length
    ∧ (∀ a0 ∈ db_one_alert.alerts,
        ∀ a1 ∈ (AlertEngine.resolve_alerts_for_server db_one_alert "srv1" none 7).2.alerts,
          a1.id = a0.id →
            (a1.is_resolved = true
              ↔ (a0.is_resolved = true
                  ∨ (a0.server_id = "srv1" ∧ a0.is_resolved = false
                      ∧ matches_filter none a0 = true)))) :=
  ⟨⟨by decide, resolve_roundtrip.1 db_one_alert 1 7 (by decide)⟩,
    resolve_roundtrip.2.1 db_one_alert 1 7,
    resolve_roundtrip.2.2.1 db_one_alert 1 7 (some "srv1"),
    resolve_roundtrip.2.2.2.1 db_one_alert "srv1" none 7 (by decide),
    resolve_roundtrip.2.2.2.2 db_one_alert "srv1" none 7 (by decide) (by decide)⟩

/-! ## C4: the offline sweep -/

theorem has_offline_iff (db : DBState) (h : String) (hh : h ≠ "") :
    ((AlertOperations.get_active_alerts db (some h)).any
        (fun a => a.alert_type == "offline") = true)
      ↔ open_alerts_of db h "offline" ≠ [] := by
  rw [List.any_eq_true]
  constructor
  · rintro ⟨a, ha, hty⟩
    have hm := mem_get_active_alerts.mp ha
    have hmem : a ∈ open_alerts_of db h "offline" :=
      mem_open_alerts_of.mpr ⟨hm.1, hm.2.2.resolve_left hh, by simpa using hty, hm.2.1⟩
    intro hnil
    rw [hnil] at hmem
    exact absurd hmem (List.not_mem_nil a)
  · intro hne
    obtain ⟨a, ha⟩ := List.exists_mem_of_ne_nil _ hne
    have hm := mem_open_alerts_of.mp ha
    exact ⟨a, mem_get_active_alerts.mpr ⟨hm.1, hm.2.2.2, Or.inr hm.2.1⟩, by simp [hm.2.2.1]⟩

theorem get_health_status_create (db : DBState)
    (server_id alert_type severity message : String) (thv act : Option ℚ) (now : ℚ)
    (sid : String) :
    HealthStatusOperations.get_health_status
      (AlertOperations.create_alert db server_id alert_type severity message thv act now).2 sid
      = HealthStatusOperations.get_health_status db sid := rfl

/-- The combined effect of the offline sweep loop on one host `h`: when `h`
had no open offline alert and some listed server with id `h` is stale, the
loop leaves exactly one open offline alert for `h` and a down/offline health
row; otherwise it changes neither `h`'s open-offline-alert count nor `h`'s
health row. -/
theorem offline_go_effects (eng : AlertEngine) (net : String → Nat → Option Int)
    (now : ℚ) (servers : List Server) (db : DBState) (h : String) (hh : h ≠ "") :
    if (open_alerts_of db h "offline").length = 0
        ∧ ∃ s ∈ servers, s.server_id = h ∧ s.last_seen < now - eng.offline_timeout
    then (open_alerts_of (AlertEngine.offline_go eng net now servers db).2 h "offline").length = 1
      ∧ ∃ hs, HealthStatusOperations.get_health_status
          (AlertEngine.offline_go eng net now servers db).2 h = some hs
          ∧ hs.status = "down" ∧ hs.connectivity_status = "offline"
    else (open_alerts_of (AlertEngine.offline_go eng net now servers db).2 h "offline").length
          = (open_alerts_of db h "offline").length
      ∧ HealthStatusOperations.get_health_status
          (AlertEngine.offline_go eng net now servers db).2 h
          = HealthStatusOperations.get_health_status db h := by
  induction servers generalizing db with
  | nil =>
    rw [if_neg (by rintro ⟨-, s, hs, -⟩; exact absurd hs (List.not_mem_nil s))]
    exact ⟨rfl, rfl⟩
  | cons s rest ih =>
    have htrans : ∀ db' : DBState, (open_alerts_of db' h "offline").length ≠ 0 →
        (open_alerts_of (AlertEngine.offline_go eng net now rest db').2 h "offline").length
          = (open_alerts_of db' h "offline").length
        ∧ HealthStatusOperations.get_health_status
            (AlertEngine.offline_go eng net now rest db').2 h
          = HealthStatusOperations.get_health_status db' h := by
      intro db' hne
      have hthis := ih db'
      rw [if_neg (by rintro ⟨hz, -⟩; exact hne hz)] at hthis
      exact hthis
    by_cases hstale : s.last_seen < now - eng.offline_timeout
    · by_cases hoff : ((AlertOperations.get_active_alerts db (some s.server_id)).any
          (fun a => a.alert_type == "offline")) = true
      · have hskip : AlertEngine.offline_go eng net now (s :: rest) db
            = AlertEngine.offline_go eng net now rest db := by
          conv_lhs => unfold AlertEngine.offline_go
          rw [if_pos hstale]
          simp [hoff]
        rw [hskip]
        by_cases hid : s.server_id = h
        · have hne : open_alerts_of db h "offline" ≠ [] :=
            (has_offline_iff db h hh).mp (by rw [← hid]; exact hoff)
          have hcnt : (open_alerts_of db h "offline").length ≠ 0 := by
            simpa [List.length_eq_zero] using hne
          rw [if_neg (by rintro ⟨hzero, -⟩; exact hcnt hzero)]
          exact htrans db hcnt
        · have hcond : ((open_alerts_of db h "offline").length = 0
              ∧ ∃ u ∈ s :: rest, u.server_id = h ∧ u.last_seen < now - eng.offline_timeout)
              ↔ ((open_alerts_of db h "offline").length = 0
              ∧ ∃ u ∈ rest, u.server_id = h ∧ u.last_seen < now - eng.offline_timeout) := by
            constructor
            · rintro ⟨hz, u, hu, huid, hus⟩
              rcases List.mem_cons.mp hu with rfl | hu2
              · exact absurd huid hid
              · exact ⟨hz, u, hu2, huid, hus⟩
            · rintro ⟨hz, u, hu, huid, hus⟩
              exact ⟨hz, u, List.mem_cons_of_mem _ hu, huid, hus⟩
          have hthis := ih db
          by_cases hc : (open_alerts_of db h "offline").length = 0
              ∧ ∃ u ∈ rest, u.server_id = h ∧ u.last_seen < now - eng.offline_timeout
          · rw [if_pos (hcond.mpr hc)]
            rw [if_pos hc] at hthis
            exact hthis
          · rw [if_neg (fun hx => hc (hcond.mp hx))]
            rw [if_neg hc] at hthis
            exact hthis
      · -- creation branch
        have hoffF : ((AlertOperations.get_active_alerts db (some s.server_id)).any
            (fun a => a.alert_type == "offline")) = false := by simpa using hoff
        set C := AlertOperations.create_alert db s.server_id "offline" "critical"
          (offline_alert_message s.server_id ⌊(now - s.last_seen) / 60⌋)
          (some eng.offline_timeout) (some (now - s.last_seen)) now with hC
        set dbP := AlertEngine.process_alert eng net C.2 C.1 now with hP
        set db3 := HealthStatusOperations.update_health_status dbP s.server_id "down"
          "normal" "normal" "normal" "offline" none none none now with h3
        have hcreate : AlertEngine.offline_go eng net now (s :: rest) db
            = (C.1 :: (AlertEngine.offline_go eng net now rest db3).1,
               (AlertEngine.offline_go eng net now rest db3).2) := by
          rw [h3, hP, hC]
          conv_lhs => unfold AlertEngine.offline_go
          rw [if_pos hstale]
          simp only [hoffF, Bool.not_false, if_true]
        rw [hcreate]
        dsimp only
        have hcnt3 : (open_alerts_of db3 h "offline").length
            = (open_alerts_of db h "offline").length + (if s.server_id = h then 1 else 0) := by
          rw [h3, open_alerts_of_update_health, hP,
            open_alerts_of_woc_length (process_alert_woc eng net C.2 C.1 now), hC]
          by_cases hid : s.server_id = h
          · subst hid
            rw [open_alerts_of_create_match]
            simp
          · rw [open_alerts_of_create_other db s.server_id "offline" "critical"
              (offline_alert_message s.server_id ⌊(now - s.last_seen) / 60⌋)
              (some eng.offline_timeout) (some (now - s.last_seen)) now h "offline"
              (Or.inl hid)]
            simp [hid]
        by_cases hid : s.server_id = h
        · subst hid
          have hopen0 : open_alerts_of db s.server_id "offline" = [] := by
            by_contra hne
            exact (by simpa using hoffF : ¬ _) ((has_offline_iff db s.server_id hh).mpr hne)
          have hcnt3' : (open_alerts_of db3 s.server_id "offline").length = 1 := by
            rw [hcnt3, hopen0]
            simp
          rw [if_pos ⟨by rw [hopen0]; rfl, s, List.mem_cons_self _ _, rfl, hstale⟩]
          have ht := htrans db3 (by rw [hcnt3']; exact one_ne_zero)
          refine ⟨ht.1.trans hcnt3', ?_⟩
          obtain ⟨hs, hf, hsid2, hst, -, -, -, hcn, -⟩ :=
            get_health_status_update_self dbP s.server_id "down" "normal" "normal"
              "normal" "offline" none none none now
          refine ⟨hs, ?_, hst, hcn⟩
          rw [ht.2, h3]
          exact hf
        · have hgh3 : HealthStatusOperations.get_health_status db3 h
              = HealthStatusOperations.get_health_status db h := by
            rw [h3, get_health_status_update_other dbP s.server_id "down" "normal"
              "normal" "normal" "offline" none none none now h hid, hP,
              get_health_status_woc (process_alert_woc eng net C.2 C.1 now), hC,
              get_health_status_create]
          have hcnt3eq : (open_alerts_of db3 h "offline").length
              = (open_alerts_of db h "offline").length := by
            rw [hcnt3, if_neg hid]
            omega
          have hcond : ((open_alerts_of db h "offline").length = 0
              ∧ ∃ u ∈ s :: rest, u.server_id = h ∧ u.last_seen < now - eng.offline_timeout)
              ↔ ((open_alerts_of db3 h "offline").length = 0
              ∧ ∃ u ∈ rest, u.server_id = h ∧ u.last_seen < now - eng.offline_timeout) := by
            rw [hcnt3eq]
            constructor
            · rintro ⟨hz, u, hu, huid, hus⟩
              rcases List.mem_cons.mp hu with rfl | hu2
              · exact absurd huid hid
              · exact ⟨hz, u, hu2, huid, hus⟩
            · rintro ⟨hz, u, hu, huid, hus⟩
              exact ⟨hz, u, List.mem_cons_of_mem _ hu, huid, hus⟩
          have hthis := ih db3
          by_cases hc : (open_alerts_of db3 h "offline").length = 0
              ∧ ∃ u ∈ rest, u.server_id = h ∧ u.last_seen < now - eng.offline_timeout
          · rw [if_pos (hcond.mpr hc)]
            rw [if_pos hc] at hthis
            exact hthis
          · rw [if_neg (fun hx => hc (hcond.mp hx))]
            rw [if_neg hc] at hthis
            exact ⟨hthis.1.trans hcnt3eq, hthis.2.trans hgh3⟩
    · have hskip : AlertEngine.offline_go eng net now (s :: rest) db
          = AlertEngine.offline_go eng net now rest db := by
        conv_lhs => unfold AlertEngine.offline_go
        rw [if_neg hstale]
      rw [hskip]
      have hcond : ((open_alerts_of db h "offline").length = 0
          ∧ ∃ u ∈ s :: rest, u.server_id = h ∧ u.last_seen < now - eng.offline_timeout)
          ↔ ((open_alerts_of db h "offline").length = 0
          ∧ ∃ u ∈ rest, u.server_id = h ∧ u.last_seen < now - eng.offline_timeout) := by
        constructor
        · rintro ⟨hz, u, hu, huid, hus⟩
          rcases List.mem_cons.mp hu with rfl | hu2
          · exact absurd hus hstale
          · exact ⟨hz, u, hu2, huid, hus⟩
        · rintro ⟨hz, u, hu, huid, hus⟩
          exact ⟨hz, u, List.mem_cons_of_mem _ hu, huid, hus⟩
      have hthis := ih db
      by_cases hc : (open_alerts_of db h "offline").length = 0
          ∧ ∃ u ∈ rest, u.server_id = h ∧ u.last_seen < now - eng.offline_timeout
      · rw [if_pos (hcond.mpr hc)]
        rw [if_pos hc] at hthis
        exact hthis
      · rw [if_neg (fun hx => hc (hcond.mp hx))]
        rw [if_neg hc] at hthis
        exact hthis

/-- Field invariant of the offline sweep: if every listed server carrying id
`h` was last seen at `L` and every open offline alert of `h` already records
severity critical, threshold `offline_timeout` and actual value `now - L`,
the sweep preserves this for every open offline alert of `h`. -/
theorem offline_go_fields (eng : AlertEngine) (net : String → Nat → Option Int)
    (now : ℚ) (servers : List Server) (db : DBState) (h : String) (L : ℚ)
    (hsame : ∀ u ∈ servers, u.server_id = h → u.last_seen = L)
    (hall : ∀ a ∈ open_alerts_of db h "offline",
      a.severity = "critical" ∧ a.threshold_value = some eng.offline_timeout
        ∧ a.actual_value = some (now - L)) :
    ∀ a ∈ open_alerts_of (AlertEngine.offline_go eng net now servers db).2 h "offline",
      a.severity = "critical" ∧ a.threshold_value = some eng.offline_timeout
        ∧ a.actual_value = some (now - L) := by
  induction servers generalizing db with
  | nil => exact hall
  | cons s rest ih =>
    have hsame' : ∀ u ∈ rest, u.server_id = h → u.last_seen = L :=
      fun u hu => hsame u (List.mem_cons_of_mem _ hu)
    by_cases hstale : s.last_seen < now - eng.offline_timeout
    · by_cases hoff : ((AlertOperations.get_active_alerts db (some s.server_id)).any
          (fun a => a.alert_type == "offline")) = true
      · have hskip : AlertEngine.offline_go eng net now (s :: rest) db
            = AlertEngine.offline_go eng net now rest db := by
          conv_lhs => unfold AlertEngine.offline_go
          rw [if_pos hstale]
          simp [hoff]
        rw [hskip]
        exact ih db hsame' hall
      · have hoffF : ((AlertOperations.get_active_alerts db (some s.server_id)).any
            (fun a => a.alert_type == "offline")) = false := by simpa using hoff
        set C := AlertOperations.create_alert db s.server_id "offline" "critical"
          (offline_alert_message s.server_id ⌊(now - s.last_seen) / 60⌋)
          (some eng.offline_timeout) (some (now - s.last_seen)) now with hC
        set dbP := AlertEngine.process_alert eng net C.2 C.1 now with hP
        set db3 := HealthStatusOperations.update_health_status dbP s.server_id "down"
          "normal" "normal" "normal" "offline" none none none now with h3
        have hcreate : AlertEngine.offline_go eng net now (s :: rest) db
            = (C.1 :: (AlertEngine.offline_go eng net now rest db3).1,
               (AlertEngine.offline_go eng net now rest db3).2) := by
          rw [h3, hP, hC]
          conv_lhs => unfold AlertEngine.offline_go
          rw [if_pos hstale]
          simp only [hoffF, Bool.not_false, if_true]
        rw [hcreate]
        dsimp only
        have hallC : ∀ a ∈ open_alerts_of C.2 h "offline",
            a.severity = "critical" ∧ a.threshold_value = some eng.offline_timeout
              ∧ a.actual_value = some (now - L) := by
          rw [hC]
          by_cases hid : s.server_id = h
          · subst hid
            rw [open_alerts_of_create_match]
            intro a ha
            rcases List.mem_append.mp ha with ha | ha
            · exact hall a ha
            · rw [List.mem_singleton] at ha
              subst ha
              refine ⟨rfl, rfl, ?_⟩
              show some (now - s.last_seen) = some (now - L)
              rw [hsame s (List.mem_cons_self s rest) rfl]
          · rw [open_alerts_of_create_other db s.server_id "offline" "critical"
              (offline_alert_message s.server_id ⌊(now - s.last_seen) / 60⌋)
              (some eng.offline_timeout) (some (now - s.last_seen)) now h "offline"
              (Or.inl hid)]
            exact hall
        have hallP : ∀ a ∈ open_alerts_of dbP h "offline",
            a.severity = "critical" ∧ a.threshold_value = some eng.offline_timeout
              ∧ a.actual_value = some (now - L) := by
          rw [hP]
          exact open_alerts_of_woc_fields (process_alert_woc eng net C.2 C.1 now) h "offline"
            "critical" (some eng.offline_timeout) (some (now - L)) hallC
        have hall3 : ∀ a ∈ open_alerts_of db3 h "offline",
            a.severity = "critical" ∧ a.threshold_value = some eng.offline_timeout
              ∧ a.actual_value = some (now - L) := by
          rw [h3, open_alerts_of_update_health]
          exact hallP
        exact ih db3 hsame' hall3
    · have hskip : AlertEngine.offline_go eng net now (s :: rest) db
          = AlertEngine.offline_go eng net now rest db := by
        conv_lhs => unfold AlertEngine.offline_go
        rw [if_neg hstale]
      rw [hskip]
      exact ih db hsame' hall

/-- C4: for an active host whose last-seen timestamp is older than the offline
timeout and which has no open offline alert, `check_offline_servers` leaves
exactly one open offline alert for that host — with severity critical,
threshold the offline timeout and actual value the seconds since the host was
last seen — and stores an overall-down / connectivity-offline health row for
it; a second sweep with no intervening liveness update (any later clock, any
network behaviour) still leaves exactly one open offline alert, not two. -/
theorem check_offline_idempotent (eng : AlertEngine)
    (net net2 : String → Nat → Option Int) (db : DBState) (now now2 : ℚ) (s : Server)
    (hmem : s ∈ db.servers) (hact : s.is_active = true)
    (hstale : s.last_seen < now - eng.offline_timeout)
    (hopen : open_alerts_of db s.server_id "offline" = [])
    (hh : s.server_id ≠ "")
    (hsame : ∀ u ∈ db.servers, u.server_id = s.server_id → u.last_seen = s.last_seen) :
    (open_alerts_of (AlertEngine.check_offline_servers eng net db now).2
        s.server_id "offline").length = 1
    ∧ (∀ a ∈ open_alerts_of (AlertEngine.check_offline_servers eng net db now).2
          s.server_id "offline",
        a.severity = "critical" ∧ a.threshold_value = some eng.offline_timeout
          ∧ a.actual_value = some (now - s.last_seen))
    ∧ (∃ hs, HealthStatusOperations.get_health_status
          (AlertEngine.check_offline_servers eng net db now).2 s.server_id = some hs
        ∧ hs.status = "down" ∧ hs.connectivity_status = "offline")
    ∧ (open_alerts_of
        (AlertEngine.check_offline_servers eng net2
          (AlertEngine.check_offline_servers eng net db now).2 now2).2
        s.server_id "offline").length = 1 := by
  have heff := offline_go_effects eng net now (ServerOperations.get_all_servers db true)
    db s.server_id hh
  rw [if_pos ⟨by rw [hopen]; rfl,
    s, List.mem_filter.mpr ⟨hmem, hact⟩, rfl, hstale⟩] at heff
  have hcount1 : (open_alerts_of (AlertEngine.check_offline_servers eng net db now).2
      s.server_id "offline").length = 1 := heff.1
  refine ⟨hcount1, ?_, heff.2, ?_⟩
  · exact offline_go_fields eng net now (ServerOperations.get_all_servers db true) db
      s.server_id s.last_seen
      (fun u hu => hsame u (List.mem_filter.mp hu).1)
      (by rw [hopen]; intro a ha; exact absurd ha (List.not_mem_nil a))
  · have heff2 := offline_go_effects eng net2 now2
      (ServerOperations.get_all_servers (AlertEngine.check_offline_servers eng net db now).2 true)
      (AlertEngine.check_offline_servers eng net db now).2 s.server_id hh
    rw [if_neg (by rintro ⟨hz, -⟩; rw [hcount1] at hz; exact one_ne_zero hz)] at heff2
    exact heff2.1.trans hcount1

/-- Witness for C4: one server last seen at 0, swept at `now = 600` with
`offline_timeout = 300`, swept again at 1200. -/
theorem check_offline_idempotent_witness :
    (Server.mk "srv1" 0 true ∈ db_one_server.servers)
    ∧ ((Server.mk "srv1" 0 true).is_active = true)
    ∧ ((Server.mk "srv1" 0 true).last_seen < 600 - eng_default.offline_timeout)
    ∧ (open_alerts_of db_one_server (Server.mk "srv1" 0 true).server_id "offline" = [])
    ∧ ((Server.mk "srv1" 0 true).server_id ≠ "")
    ∧ (∀ u ∈ db_one_server.servers, u.server_id = (Server.mk "srv1" 0 true).server_id →
        u.last_seen = (Server.mk "srv1" 0 true).last_seen)
    ∧ ((open_alerts_of
          (AlertEngine.check_offline_servers eng_default net_none db_one_server 600).2
          (Server.mk "srv1" 0 true).server_id "offline").length = 1
      ∧ (∀ a ∈ open_alerts_of
            (AlertEngine.check_offline_servers eng_default net_none db_one_server 600).2
            (Server.mk "srv1" 0 true).server_id "offline",
          a.severity = "critical"
            ∧ a.threshold_value = some eng_default.offline_timeout
            ∧ a.actual_value = some (600 - (Server.mk "srv1" 0 true).last_seen))
      ∧ (∃ hs, HealthStatusOperations.get_health_status
            (AlertEngine.check_offline_servers eng_default net_none db_one_server 600).2
            (Server.mk "srv1" 0 true).server_id = some hs
          ∧ hs.status = "down" ∧ hs.connectivity_status = "offline")
      ∧ (open_alerts_of
          (AlertEngine.check_offline_servers eng_default net_none
            (AlertEngine.check_offline_servers eng_default net_none db_one_server 600).2
            1200).2
          (Server.mk "srv1" 0 true).server_id "offline").length = 1) :=
  ⟨by decide, by decide, by norm_num [eng_default], by decide, by decide, by decide,
    check_offline_idempotent eng_default net_none net_none db_one_server 600 1200
      (Server.mk "srv1" 0 true) (by decide) (by decide) (by norm_num [eng_default])
      (by decide) (by decide) (by decide)⟩

end Monitoring
